import Mathlib

/-!
# Verification of the JAIBird SENS pipeline core

A shallow embedding, in Lean 4, of the algorithmic core of the JAIBird
repository: the OCR quality assessor and AI fallback extractor
(`src/ai/pdf_parser.py`), the deterministic title categorizer and
anomaly detector (`src/analytics/sens_categorizer.py`), the company
intelligence store (`src/company/company_db.py`) and the enricher
(`src/company/enricher.py`).

Conventions of the embedding:
* Python strings are Lean `String`s; the embedding is faithful for
  ASCII text (Python's Unicode-aware `\w`/`\s`/`lower` coincide with
  the ASCII definitions used here on ASCII input; SQLite's `LOWER`
  is ASCII-only).
* Python floats are embedded as exact rationals (`ℚ`); every float
  comparison appearing in the sources is a comparison of an integer
  against a product/quotient whose float rounding error is far below
  the distance to the nearest integer, so exact arithmetic agrees.
* External effects (the OCR engine, the two AI providers, `json.loads`,
  the SQLite file, the clock) are supplied as explicit environment
  values; the repository's own logic around them is translated
  literally from the source.
-/

namespace JAIBird

/-! ## Python character and string primitives -/

/-- Python's `\s` / `str.split()` / `str.strip()` whitespace (ASCII part). -/
def pyIsSpace (c : Char) : Bool :=
  c = ' ' || c = '\t' || c = '\n' || c = '\x0d' || c = '\x0b' || c = '\x0c'

/-- Python's `\w` word character (ASCII part): alphanumeric or underscore. -/
def isWordChar (c : Char) : Bool :=
  c.isAlphanum || c = '_'

/-- ASCII letter, the class `[a-zA-Z]`. -/
def isAsciiLetter (c : Char) : Bool :=
  ('a' ≤ c && c ≤ 'z') || ('A' ≤ c && c ≤ 'Z')

/-- ASCII uppercase letter, the class `[A-Z]`. -/
def isAsciiUpper (c : Char) : Bool :=
  'A' ≤ c && c ≤ 'Z'

/-- ASCII decimal digit, the class `\d`. -/
def isAsciiDigit (c : Char) : Bool :=
  '0' ≤ c && c ≤ '9'

/-- ASCII case folding, as performed by `re.IGNORECASE` / SQLite `LOWER`. -/
def lowerChar (c : Char) : Char :=
  if 'A' ≤ c && c ≤ 'Z' then Char.ofNat (c.toNat + 32) else c

def lowerStr (s : String) : String :=
  String.mk (s.toList.map lowerChar)

/-- Python `str.strip()` on a character list. -/
def pyStripL (s : List Char) : List Char :=
  ((s.dropWhile pyIsSpace).reverse.dropWhile pyIsSpace).reverse

/-- Python `str.strip()`. -/
def pyStrip (s : String) : String :=
  String.mk (pyStripL s.toList)

/-- The lengths of the words of `text.split()` (split on whitespace runs,
empty pieces dropped); `cur` is the length of the word read so far. -/
def wordLengths (cur : Nat) : List Char → List Nat
  | [] => if cur = 0 then [] else [cur]
  | c :: rest =>
      if pyIsSpace c then
        if cur = 0 then wordLengths 0 rest else cur :: wordLengths 0 rest
      else
        wordLengths (cur + 1) rest

/-! ## OCR quality assessment (`PDFParser._assess_ocr_quality`)

The three artifact regexes of the source are counted by direct scans:
`re.findall` of a single-character class counts characters, `\d{5,}`
(greedy, non-overlapping) counts maximal digit runs of length ≥ 5, and
`\b[a-zA-Z]{1}\s[a-zA-Z]{1}\s` consumes four characters per match and
resumes after them. -/

/-- A character of the whitelist `[\w\s\.,;:!?\-\(\)%\$£€]`. -/
def whitelisted (c : Char) : Bool :=
  isWordChar c || pyIsSpace c ||
    (c = '.' || c = ',' || c = ';' || c = ':' || c = '!' || c = '?' ||
     c = '-' || c = '(' || c = ')' || c = '%' || c = '$' || c = '£' || c = '€')

/-- Matches of `[^\w\s\.,;:!?\-\(\)%\$£€]`: characters outside the whitelist. -/
def countUnusual (s : List Char) : Nat :=
  (s.filter (fun c => !whitelisted c)).length

/-- Matches of `\b[a-zA-Z]{1}\s[a-zA-Z]{1}\s` (non-overlapping, left to
right); `prevW` says whether the previous character was a word character
(for the `\b` assertion). -/
def countBroken (prevW : Bool) : List Char → Nat
  | a :: b :: c :: d :: rest =>
      if !prevW && isAsciiLetter a && pyIsSpace b && isAsciiLetter c && pyIsSpace d then
        1 + countBroken false rest
      else
        countBroken (isWordChar a) (b :: c :: d :: rest)
  | _ => 0

/-- Matches of `\d{5,}`: maximal digit runs of length at least 5;
`run` is the length of the current digit run. -/
def countDigitRuns (run : Nat) : List Char → Nat
  | [] => if 5 ≤ run then 1 else 0
  | c :: rest =>
      if isAsciiDigit c then countDigitRuns (run + 1) rest
      else (if 5 ≤ run then 1 else 0) + countDigitRuns 0 rest

/-- Total artifact count over the three patterns. -/
def artifactCount (s : List Char) : Nat :=
  countUnusual s + countBroken false s + countDigitRuns 0 s

/-- `PDFParser._assess_ocr_quality`.  The float comparisons
`artifact_count > char_count * 0.1` and `avg_word_length < 2` /
`avg_word_length > 15` are embedded as the exact integer comparisons
they decide (see the header note on floats). -/
def assess_ocr_quality (text : List Char) (char_count : Nat) : String :=
  if char_count < 100 then "poor"
  else if char_count < artifactCount text * 10 then "poor"
  else if (wordLengths 0 text).length < 20 then "poor"
  else if (wordLengths 0 text).sum < 2 * (wordLengths 0 text).length ∨
          15 * (wordLengths 0 text).length < (wordLengths 0 text).sum then "poor"
  else "good"

/-! ## A small regex engine

`_CATEGORY_RULES` and the enricher's extractors are compiled Python
regexes.  They are embedded as abstract syntax trees over the
constructs they actually use (literals, classes, alternation,
greedy star, optional, negative lookahead, the `$` anchor) and run by
a fuel-indexed backtracking matcher in continuation-passing style —
the standard Thompson/backtracking semantics of Python's `re`.
The fuel chosen by `Rx.search` dominates the deepest possible call
chain (one frame per constructor traversed, stars restart only on
strictly shorter input), so it never cuts a search short. -/

inductive Rx : Type
  | eps : Rx
  | cls (p : Char → Bool) : Rx
  | cat (a b : Rx) : Rx
  | alt (a b : Rx) : Rx
  | star (a : Rx) : Rx
  | nla (a : Rx) : Rx
  | eos : Rx

def Rx.size : Rx → Nat
  | .eps => 1
  | .cls _ => 1
  | .eos => 1
  | .cat a b => a.size + b.size + 1
  | .alt a b => a.size + b.size + 1
  | .star a => a.size + 1
  | .nla a => a.size + 1

/-- Backtracking matcher: `mtch fuel r s k` tries to match `r` against a
prefix of `s` and passes each candidate remainder to the continuation
`k`.  Alternation and star try alternatives left to right (Python's
leftmost/greedy preference); `nla` is `(?!...)`; `eos` is `$`, which in
Python also matches just before a final newline. -/
def mtch : Nat → Rx → List Char → (List Char → Bool) → Bool
  | 0, _, _, _ => false
  | fuel + 1, r, s, k =>
    match r with
    | .eps => k s
    | .eos => (decide (s = []) || decide (s = ['\n'])) && k s
    | .cls p =>
        match s with
        | [] => false
        | c :: rest => p c && k rest
    | .cat a b => mtch fuel a s (fun s2 => mtch fuel b s2 k)
    | .alt a b => mtch fuel a s k || mtch fuel b s k
    | .nla a => !(mtch fuel a s (fun _ => true)) && k s
    | .star a =>
        k s || mtch fuel a s (fun s2 =>
          if s2.length < s.length then mtch fuel (.star a) s2 k else false)

/-- Try a match at every start position, left to right (`re.search`). -/
def searchFrom (fuel : Nat) (r : Rx) : List Char → Bool
  | [] => mtch fuel r [] (fun _ => true)
  | c :: rest => mtch fuel r (c :: rest) (fun _ => true) || searchFrom fuel r rest

/-- `pattern.search(s) is not None`. -/
def Rx.search (r : Rx) (s : String) : Bool :=
  let l := s.toList
  searchFrom ((r.size + 2) * (l.length + 2)) r l

/-! Pattern builders, mirroring the regex syntax used in the sources. -/

def rchr (c : Char) : Rx := .cls (fun x => x = c)

def rfail : Rx := .cls (fun _ => false)

def rseq (l : List Rx) : Rx := l.foldr .cat .eps

def ralt : List Rx → Rx
  | [] => rfail
  | [r] => r
  | r :: rest => .alt r (ralt rest)

/-- A literal string. -/
def rstr (s : String) : Rx := rseq (s.toList.map rchr)

/-- Greedy `+`. -/
def rplus (r : Rx) : Rx := .cat r (.star r)

/-- Greedy `?` (present first, as Python prefers). -/
def ropt (r : Rx) : Rx := .alt r .eps

/-- `\s+`. -/
def wsp : Rx := rplus (.cls pyIsSpace)

/-- `\s*`. -/
def wss : Rx := .star (.cls pyIsSpace)

/-- `.` (anything but newline; patterns are compiled without DOTALL). -/
def rdot : Rx := .cls (fun c => c ≠ '\n')

/-- `.*`. -/
def rdotStar : Rx := .star rdot

/-- `\d`. -/
def rdigitRx : Rx := .cls isAsciiDigit

/-- Literal words joined by `\s+`. -/
def rwords (l : List String) : Rx := rseq (List.intersperse wsp (l.map rstr))

/-! ## The category rule table (`_CATEGORY_RULES`)

All patterns are compiled with `re.IGNORECASE`; the embedding lowercases
the title (`categorize_title` below) and transcribes the patterns in
lowercase, which is equivalent for ASCII.  Order is the registration
order of the `_r(...)` calls in the source — first match wins. -/

/-- `trading\s+(?:statement|update)|operational\s+(?:update|performance)|festive\s+season\s+trading` -/
def pat_trading : Rx :=
  ralt [
    rseq [rstr "trading", wsp, ralt [rstr "statement", rstr "update"]],
    rseq [rstr "operational", wsp, ralt [rstr "update", rstr "performance"]],
    rwords ["festive", "season", "trading"]]

/-- The `Financial Results` pattern. -/
def pat_results : Rx :=
  ralt [
    rseq [ralt [rstr "financial", rstr "interim", rstr "annual"], wsp, rstr "results"],
    rseq [rstr "condensed", wsp, ropt (rseq [rstr "consolidated", wsp]), rstr "financial"],
    rwords ["earnings", "release"],
    rseq [rstr "quarterly", wsp, ropt (rseq [rstr "investor", wsp]), rstr "report"],
    rwords ["investor", "report"],
    rseq [rstr "results", wsp, rstr "for", wsp, rstr "the", wsp,
          ralt [rstr "first", rstr "second", rstr "third", rstr "fourth"], wsp, rstr "quarter"],
    rwords ["results", "presentation"],
    rseq [rstr "short-form", wsp, rstr "announcement", rdotStar, rstr "results"],
    rseq [rchr 'q', .cls (fun c => '1' ≤ c && c ≤ '4'), wsp, rstr "fy",
          rdigitRx, rdigitRx, rdigitRx, rdigitRx, wsp, rstr "results"],
    rwords ["production", "report"],
    rwords ["business", "update", "for", "the"],
    rseq [rstr "publication", wsp, rstr "of", wsp, rdotStar,
          ralt [rstr "results", rwords ["financial", "statements"]]],
    rseq [rstr "monthly", wsp, rstr "fact", wss, rstr "sheet"],
    rseq [rstr "notice", wsp, rstr "of", wsp, rstr "availability", rdotStar, rstr "factsheet"]]

/-- The `Acquisitions & Disposals` pattern. -/
def pat_acq : Rx :=
  ralt [
    rseq [rstr "acquisition", wsp, rstr "of", wsp, ropt (rseq [rstr "the", wsp]),
          .nla (ralt [rstr "beneficial", rstr "securities", rstr "shares"])],
    rwords ["proposed", "acquisition"],
    rwords ["disposal", "of"],
    rwords ["disposal", "by"],
    rstr "divestment",
    rwords ["general", "offer", "to", "acquire"],
    rseq [rstr "purchase", wsp, rstr "of", wsp,
          .nla (ralt [rstr "investec", rseq [rdotStar, rstr "shares"]])],
    rseq [rstr "voluntary", wsp, rstr "announcement", rdotStar,
          ralt [rstr "disposal", rstr "acquisition", rstr "purchase"]],
    ralt [rseq [rstr "earn", .star (.cls (fun c => pyIsSpace c || c = '-')),
                rstr "in", wsp, rstr "agreement"],
          rwords ["prepayment", "facility"]],
    rseq [rstr "firm", wsp, rstr "intention", rdotStar,
          ralt [rstr "offer", rstr "acquire", rstr "disposal"]],
    rseq [rstr "offer", wsp, rstr "for", wsp, rdotStar, ralt [rstr "by", rstr "from"], wsp]]

/-- The `Share Buybacks & Treasury` pattern (registered before the
dealings pattern — the comment in the source says this order is
deliberate). -/
def pat_buyback : Rx :=
  ralt [
    rwords ["transaction", "in", "own", "shares"],
    rwords ["repurchase", "of"],
    rwords ["share", "buyback"],
    rwords ["treasury", "shares"],
    rwords ["confirmation", "of", "treasury"],
    rseq [rstr "buy", ropt (rchr '-'), rstr "back", wsp,
          ralt [rstr "notification", rstr "programme", rstr "program"]],
    rwords ["repurchase", "programme"]]

/-- The `Dealings by Directors` pattern. -/
def pat_dealings : Rx :=
  ralt [
    rseq [rstr "dealing", ropt (rchr 's'), wsp, rstr "in", wsp, rstr "securities", wsp, rstr "by"],
    rseq [rstr "dealing", ropt (rchr 's'), wsp, rstr "in", wsp, rstr "securities", .eos],
    rseq [rstr "transaction", ropt (rchr 's'), wsp,
          ralt [rseq [rstr "in", wsp, rdotStar, rstr "shares"],
                rseq [rstr "by", wsp, rstr "person", ropt (rchr 's'), wsp,
                      rstr "discharging", wsp, rstr "managerial"]]],
    rseq [rstr "dealing", wsp, rstr "in", wsp, ralt [rstr "securities", rstr "shares"], wsp, rstr "by"],
    rseq [rstr "dealing", wsp, rstr "in", wsp, rstr "securities", .eos],
    rseq [rstr "dealing", wsp, rstr "in", wsp, rstr "shares", .eos],
    rseq [rstr "dealing", wsp, rstr "by", wsp, ralt [rstr "subsidiary", rstr "director"]],
    rseq [rstr "share", wsp, ralt [rstr "incentive", rstr "option"], rdotStar,
          ralt [rstr "exercise", rstr "settlement", rstr "transaction"]],
    rwords ["employee", "share", "plan"],
    rwords ["exercise", "of", "options"],
    rwords ["settlement", "of", "shares", "in", "terms"],
    rseq [rstr "share", wsp, ralt [rstr "plan", rstr "scheme"], wsp, rstr "transaction"],
    rwords ["disclosure", "of", "management", "transaction"],
    rwords ["share", "subdivision"],
    rwords ["notification", "of", "securities"]]

/-- The `Board & Management Changes` pattern. -/
def pat_board : Rx :=
  ralt [
    rseq [rstr "change", ropt (rchr 's'), wsp, rstr "to", wsp, rstr "the", wsp, rstr "board"],
    rwords ["directorate", "change"],
    rseq [rstr "appointment", wsp, rstr "of", wsp, ropt (rseq [rstr "independent", wsp]),
          ropt (rseq [rstr "non-executive", wsp]), rstr "director"],
    rseq [rstr "retirement", wsp, rstr "of", wsp,
          ralt [rwords ["senior", "executive"], rseq [rdotStar, rstr "director"]]],
    rwords ["executive", "responsibilities"],
    rwords ["management", "arrangements"],
    rwords ["board", "committees"],
    rwords ["change", "to", "the", "board"],
    rwords ["termination", "of", "board", "member"]]

/-- `cautionary\s+announcement|cautionary$` -/
def pat_cautionary : Rx :=
  ralt [rwords ["cautionary", "announcement"], rseq [rstr "cautionary", .eos]]

/-- The `Dividends & Distributions` pattern. -/
def pat_dividends : Rx :=
  ralt [
    rseq [ropt (rseq [rstr "declaration", wsp, rstr "of", wsp]), rstr "dividend"],
    rwords ["distribution", "finalisation"],
    rwords ["preference", "share", "dividend"],
    rseq [rstr "rectification", rdotStar, rstr "dividend"]]

/-- The `Capital Raises & Placements` pattern. -/
def pat_capital : Rx :=
  ralt [
    rwords ["private", "placement"],
    rwords ["rights", "issue"],
    rwords ["capital", "raise"],
    rwords ["share", "placement"],
    rwords ["tap", "issuance"]]

/-- The `Funding & Debt` pattern. -/
def pat_funding : Rx :=
  ralt [
    rwords ["credit", "facilit"],
    rstr "refinancing",
    rseq [ralt [rwords ["medium", "term", "note"], rstr "note"], wsp, rstr "programme"],
    rwords ["corporate", "facilities"],
    rwords ["pricing", "supplement"]]

/-- The `Major Holdings Disclosure` pattern. -/
def pat_holdings : Rx :=
  ralt [
    rseq [rstr "major", wsp, rstr "holding", ropt (rchr 's')],
    rwords ["beneficial", "interest"],
    rwords ["change", "in", "beneficial"],
    rseq [rstr "disclosure", wsp, rstr "of", wsp,
          ralt [rstr "acquisition", rstr "increase",
                rwords ["significant", "holding"], rstr "beneficial"]],
    rseq [rstr "notification", wsp, rstr "of", wsp,
          ralt [rstr "major",
                rseq [rstr "change", wsp, rstr "in", wsp, ropt (rseq [rstr "a", wsp]), rstr "major"]]],
    rwords ["total", "voting", "rights"],
    rwords ["voting", "rights", "and", "capital"],
    rseq [rstr "schedule", wsp, rstr "13", .cls (fun c => c = 'g' || c = 'd')],
    rwords ["acquisition", "of", "securities", "by", "clients"]]

/-- The `AGM & Shareholder Meetings` pattern. -/
def pat_agm : Rx :=
  ralt [
    rwords ["general", "meeting"],
    rseq [rstr "circular", rdotStar, rstr "shareholders"],
    rwords ["notice", "of", "general", "meeting"],
    rseq [rstr "results", wsp, rstr "of", wsp, ropt (rseq [rstr "the", wsp]),
          ralt [rstr "annual", rstr "extraordinary"], wsp, rstr "general", wsp, rstr "meeting"],
    rwords ["withdrawal", "of", "resolutions"],
    rwords ["voluntary", "business", "update", "at", "agm"]]

/-- The `Corporate Actions` pattern. -/
def pat_corporate : Rx :=
  ralt [
    rwords ["suspension", "from", "quotation"],
    rwords ["reinstatement", "to", "quotation"],
    rseq [rstr "auditor", wsp, ralt [rstr "appointment", rstr "change"]],
    rwords ["bbbee", "compliance"],
    rwords ["ceo", "letter"],
    rwords ["response", "to", "rule"],
    rwords ["notice", "to", "affected", "persons"],
    rwords ["name", "change"],
    rwords ["annual", "financial", "statements"],
    rseq [rstr "availability", wsp, rstr "of", wsp, rdotStar, rstr "annual"]]

/-- The `Interest Payments` pattern (noise). -/
def pat_interest : Rx :=
  ralt [
    rseq [rstr "interest", wsp, ralt [rstr "payment", rstr "amount"]],
    rwords ["notification", "of", "interest"],
    rwords ["interest", "rate", "reset"],
    rwords ["fixed", "interim", "payment"],
    rwords ["interest", "and", "capital", "payment"]]

/-- The `Listing / Delisting of Securities` pattern (noise). -/
def pat_listing : Rx :=
  ralt [
    rwords ["listing", "of", "additional"],
    rwords ["additional", "listing"],
    rseq [rstr "partial", wsp,
          ralt [rseq [rstr "de", ropt (rchr '-'), rstr "listing"], rstr "delisting"]],
    rseq [rstr "new", wsp, ropt (rseq [rstr "financial", wsp, rstr "instrument", wsp]), rstr "listing"],
    rseq [rstr "listing", wsp, rstr "of", wsp, rdigitRx],
    rwords ["listing", "of", "satrix"],
    rwords ["new", "listing", "announcement"],
    rwords ["partial", "capital", "redemption"],
    rseq [ralt [rseq [rstr "de", ropt (rchr '-'), rstr "listing"], rstr "delisting"],
          wsp, rstr "of", wsp, ropt (rseq [rstr "financial", wsp]), rstr "instrument"],
    rseq [rstr "notice", wsp, rstr "of", wsp,
          ralt [rstr "expiry", rwords ["partial", "redemption"]]],
    rseq [rstr "notification", wsp, rstr "of", wsp, ropt (rseq [rstr "a", wsp]),
          rstr "partial", wsp, rstr "capital", wsp, rstr "reduction"]]

/-- The `ETF / Fund Administration` pattern (noise). -/
def pat_etf : Rx :=
  ralt [
    rseq [rstr "redemption", wsp, rstr "of", wsp,
          ralt [rstr "1nvest", rstr "newgold", rstr "etf"]],
    rwords ["partial", "redemption", "of", "securities"],
    rwords ["etf", "securities"],
    rwords ["results", "of", "the", "initial", "offer"],
    rwords ["cdi", "monthly", "movement"],
    rwords ["actively", "managed", "certificate"],
    rseq [rstr "early", wsp, ralt [rstr "termination", rstr "redemption"]]]

/-- The `Regulatory Forms & Filings` pattern (noise). -/
def pat_forms : Rx :=
  ralt [
    rseq [rstr "form", wsp, rchr '8', ropt (.cls (fun c => c = '.' || c = '-')),
          .cls (fun c => c = '3' || c = 'k')],
    rseq [rstr "tr", ropt (rchr '-'), rstr "1:"],
    rstr "trp121",
    rseq [rstr "section", wsp, ralt [rstr "122", rstr "45"]],
    rwords ["notice", "in", "terms", "of", "section"],
    rwords ["notification", "in", "terms", "of", "section"],
    rseq [rstr "form", wsp, rchr '8', ropt (.cls (fun c => c = '.' || c = '-')), wss,
          ralt [rstr "announcement", rwords ["dealing", "disclosure"], rstr "opd"]],
    rwords ["public", "opening", "position"],
    rwords ["jse", "contact", "list"],
    rseq [rstr "notice", wsp, rstr "of", wsp, rstr "availability", rdotStar,
          ralt [rstr "quarterly", rwords ["portfolio", "composition"]]],
    rwords ["publication", "of", "information", "by", "means", "of", "supplement"]]

/-- The `Amendments & Corrections` pattern (noise). -/
def pat_amendments : Rx :=
  ralt [
    rstr "amendment",
    rstr "correction",
    rseq [rstr "cancellation", wsp, rstr "of", wsp, rchr 's', rdigitRx],
    rseq [rstr "late", wsp, ralt [rstr "correction", rstr "announcement"]]]

/-- The `Debt Programme Admin` pattern (noise). -/
def pat_debt : Rx :=
  ralt [
    rseq [rstr "amendment", ropt (rchr 's'), wsp, rstr "to", wsp, rdotStar,
          ralt [rstr "note", rstr "bond"], wsp, rstr "programme"],
    rseq [rstr "amended", wsp, rstr "and", wsp, rstr "restated", rdotStar, rstr "pricing"],
    rseq [rstr "notice", wsp, rstr "requesting", wsp, rstr "written", wsp,
          rstr "consent", rdotStar, rstr "holders"],
    rwords ["final", "redemption", "announcement"],
    rseq [rstr "financial", wsp, rstr "instrument", wsp,
          ralt [rseq [rstr "partial", wsp, rstr "de", ropt (rchr '-'), rstr "listing"],
                rwords ["final", "redemption"]]],
    rwords ["notice", "of", "partial", "redemption"],
    rseq [rstr "issue", wsp, rstr "of", wsp, rstr "zar", rdotStar,
          ralt [rstr "securities", rstr "notes"], wsp, rstr "due"]]

/-- The ordered rule table: (category name, pattern, is_noise). -/
def CATEGORY_RULES : List (String × Rx × Bool) := [
  ("Trading Statements & Updates", pat_trading, false),
  ("Financial Results", pat_results, false),
  ("Acquisitions & Disposals", pat_acq, false),
  ("Share Buybacks & Treasury", pat_buyback, false),
  ("Dealings by Directors", pat_dealings, false),
  ("Board & Management Changes", pat_board, false),
  ("Cautionary Announcements", pat_cautionary, false),
  ("Dividends & Distributions", pat_dividends, false),
  ("Capital Raises & Placements", pat_capital, false),
  ("Funding & Debt", pat_funding, false),
  ("Major Holdings Disclosure", pat_holdings, false),
  ("AGM & Shareholder Meetings", pat_agm, false),
  ("Corporate Actions", pat_corporate, false),
  ("Interest Payments", pat_interest, true),
  ("Listing / Delisting of Securities", pat_listing, true),
  ("ETF / Fund Administration", pat_etf, true),
  ("Regulatory Forms & Filings", pat_forms, true),
  ("Amendments & Corrections", pat_amendments, true),
  ("Debt Programme Admin", pat_debt, true)]

/-- `categorize_title`: first matching rule wins; empty title and
no-match both fall back to `("Other / Uncategorised", False)`. -/
def categorize_title (title : String) : String × Bool :=
  if title = "" then ("Other / Uncategorised", false)
  else
    match CATEGORY_RULES.find? (fun r => r.2.1.search (lowerStr title)) with
    | some r => (r.1, r.2.2)
    | none => ("Other / Uncategorised", false)

/-! ## The announcement record (`src/database/models.py`)

`SensAnnouncement` dataclass fields used by the parser and enricher;
string fields default to `""` (Python uses empty-string sentinels, not
`None`), datetimes are carried as ISO strings. -/

structure SensAnnouncement where
  sens_number : String
  company_name : String
  title : String
  local_pdf_path : String
  date_published : Option String
  pdf_content : String
  ai_summary : String
  parse_method : String
  parse_status : String
  parsed_at : Option String
deriving Repr, DecidableEq

/-! ## AI fallback extraction (`PDFParser._extract_with_ai`)

The external effects of the method are an environment: whether a parse
AI client is configured (`_parse_ai_available`), what
`_extract_with_pypdf` would return for the PDF at hand (that helper
catches its own exceptions and returns `""`), and the outcome of the
single provider round-trip (`.error` when the call — or reading its
response — raises, `.ok text` otherwise; the prompt string sent does not
influence the control flow being verified). -/

structure ParseAIEnv where
  available : Bool
  pypdfResult : String
  aiResult : Except Unit String

/-- `PDFParser._extract_with_ai`.  Mirrors the source: no client —
return the input; empty/short input — substitute the pypdf/pdfplumber
text into `ocr_text` (or give up with `""`); provider exception — return
the current `ocr_text` variable; success — return the stripped
response. -/
def extract_with_ai (env : ParseAIEnv) (ocr_text : String) : String :=
  if !env.available then ocr_text
  else if ocr_text = "" || (pyStrip ocr_text).length < 50 then
    if env.pypdfResult ≠ "" then
      match env.aiResult with
      | .ok t => pyStrip t
      | .error _ => env.pypdfResult
    else ""
  else
    match env.aiResult with
    | .ok t => pyStrip t
    | .error _ => ocr_text

/-- Environment of one `parse_sens_pdf` run: whether the local file
exists, what `_extract_with_ocr` returns (it catches exceptions,
yielding `("", "poor")`), the AI-fallback environment, and what
`_generate_summary` returns (it catches exceptions and returns `""` on
any failure or missing client). -/
structure ParseEnv where
  fileExists : Bool
  ocrText : String
  ocrQuality : String
  ai : ParseAIEnv
  summaryResult : String

/-- `PDFParser.parse_sens_pdf`. -/
def parse_sens_pdf (env : ParseEnv) (now : String) (a : SensAnnouncement) : SensAnnouncement :=
  if a.local_pdf_path = "" || !env.fileExists then
    { a with parse_status := "failed", parse_method := "no_file" }
  else
    let a1 := { a with parse_status := "processing", parsed_at := some now }
    let step :=
      if env.ocrQuality = "good" then
        (env.ocrText, { a1 with pdf_content := env.ocrText, parse_method := "ocr" })
      else
        let c := extract_with_ai env.ai env.ocrText
        (c, { a1 with pdf_content := c, parse_method := "ai" })
    if step.1 ≠ "" then
      { step.2 with ai_summary := env.summaryResult, parse_status := "completed" }
    else
      { step.2 with parse_status := "failed" }

/-! ## The company intelligence store (`src/company/company_db.py`)

The SQLite tables are lists of rows; `AUTOINCREMENT` ids are threaded
explicitly (starting at 1).  `LOWER` in SQLite folds ASCII only, which
`lowerStr` matches.  `fetchone` without `ORDER BY` returns the first
row in insertion (rowid) order, i.e. `List.find?`. -/

structure Company where
  id : Nat
  name : String
  jse_code : String
  website : String
  sponsor : String
  description : String
  sector : String
  first_seen : Option String
  last_updated : Option String
deriving Repr, DecidableEq

structure DirectorRow where
  id : Nat
  company_id : Nat
  name : String
  role : String
  appointed_date : Option String
  resigned_date : Option String
  source_sens : String
  is_active : Bool
deriving Repr, DecidableEq

structure SponsorEvent where
  company_id : Nat
  sponsor : String
  effective_date : String
  source : String
deriving Repr, DecidableEq

structure SensLink where
  company_id : Nat
  sens_number : String
  date_published : Option String
  title : String
deriving Repr, DecidableEq

structure CompanyStore where
  companies : List Company
  directors : List DirectorRow
  sponsor_history : List SponsorEvent
  company_sens : List SensLink
  nextCompanyId : Nat
  nextDirectorId : Nat
deriving Repr, DecidableEq

def emptyStore : CompanyStore :=
  { companies := [], directors := [], sponsor_history := [], company_sens := [],
    nextCompanyId := 1, nextDirectorId := 1 }

/-- The row `upsert_company` matches: by `jse_code` first (only when the
argument is non-empty, and only against rows with a non-empty code),
then by name, both case-insensitively. -/
def upsertMatch (s : CompanyStore) (name jse_code : String) : Option Company :=
  match (if jse_code ≠ "" then
           s.companies.find? (fun c =>
             lowerStr c.jse_code = lowerStr jse_code && c.jse_code ≠ "")
         else none) with
  | some c => some c
  | none => s.companies.find? (fun c => lowerStr c.name = lowerStr name)

/-- `CompanyDB.upsert_company`: update the matched row —
`jse_code=COALESCE(NULLIF(?, ''), jse_code)` keeps the stored value when
the argument is empty, likewise `website`; the name is not in the SET
list.  No match — insert a fresh row.  Returns the company id. -/
def upsert_company (s : CompanyStore) (now : String) (name jse_code website : String) :
    Nat × CompanyStore :=
  match upsertMatch s name jse_code with
  | some row =>
      (row.id,
       { s with companies := s.companies.map (fun c =>
           if c.id = row.id then
             { c with jse_code := if jse_code = "" then c.jse_code else jse_code,
                      website := if website = "" then c.website else website,
                      last_updated := some now }
           else c) })
  | none =>
      (s.nextCompanyId,
       { s with
         companies := s.companies ++
           [{ id := s.nextCompanyId, name := name, jse_code := jse_code, website := website,
              sponsor := "", description := "", sector := "",
              first_seen := some now, last_updated := some now }],
         nextCompanyId := s.nextCompanyId + 1 })

/-- `CompanyDB.update_description` (no-op on empty description). -/
def update_description (s : CompanyStore) (now : String) (company_id : Nat)
    (description : String) : CompanyStore :=
  if description = "" then s
  else
    { s with companies := s.companies.map (fun c =>
        if c.id = company_id then
          { c with description := description, last_updated := some now }
        else c) }

/-- `CompanyDB.update_sector` (no-op on empty sector). -/
def update_sector (s : CompanyStore) (now : String) (company_id : Nat)
    (sector : String) : CompanyStore :=
  if sector = "" then s
  else
    { s with companies := s.companies.map (fun c =>
        if c.id = company_id then
          { c with sector := sector, last_updated := some now }
        else c) }

/-- `CompanyDB.get_description`. -/
def get_description (s : CompanyStore) (company_id : Nat) : String :=
  match s.companies.find? (fun c => c.id = company_id) with
  | some c => c.description
  | none => ""

/-- The `WHERE company_id=? AND LOWER(name)=LOWER(?) AND is_active=1`
director match. -/
def dirMatch (company_id : Nat) (name : String) (d : DirectorRow) : Bool :=
  d.company_id = company_id && lowerStr d.name = lowerStr name && d.is_active

/-- `CompanyDB.add_director`: an existing active record with the same
case-insensitive name gets its role/source updated (when the role
argument is non-empty) and its id returned; otherwise a fresh active
row is inserted and the company's `last_updated` touched. -/
def add_director (s : CompanyStore) (now : String) (company_id : Nat) (name role : String)
    (appointed_date : Option String) (source_sens : String) : Nat × CompanyStore :=
  match s.directors.find? (dirMatch company_id name) with
  | some ex =>
      (ex.id,
       if role ≠ "" then
         { s with directors := s.directors.map (fun d =>
             if d.id = ex.id then { d with role := role, source_sens := source_sens } else d) }
       else s)
  | none =>
      (s.nextDirectorId,
       { s with
         directors := s.directors ++
           [{ id := s.nextDirectorId, company_id := company_id, name := name, role := role,
              appointed_date := appointed_date, resigned_date := none,
              source_sens := source_sens, is_active := true }],
         nextDirectorId := s.nextDirectorId + 1,
         companies := s.companies.map (fun c =>
           if c.id = company_id then { c with last_updated := some now } else c) })

/-- `CompanyDB.resign_director`: one `UPDATE` marks every matching
active row inactive with the resignation date; returns whether any row
was hit.  Nothing is ever inserted. -/
def resign_director (s : CompanyStore) (now : String) (company_id : Nat) (name : String)
    (resigned_date : Option String) (source_sens : String) : Bool × CompanyStore :=
  let hit := s.directors.any (dirMatch company_id name)
  if hit then
    (true,
     { s with
       directors := s.directors.map (fun d =>
         if dirMatch company_id name d then
           { d with is_active := false, resigned_date := resigned_date,
                    source_sens := source_sens }
         else d),
       companies := s.companies.map (fun c =>
         if c.id = company_id then { c with last_updated := some now } else c) })
  else (false, s)

/-- `CompanyDB.set_sponsor`: strip; skip when empty or unchanged from
the current value; otherwise update the company row and append a
sponsor-history event. -/
def set_sponsor (s : CompanyStore) (now : String) (company_id : Nat)
    (sponsor source : String) : CompanyStore :=
  let sp := pyStrip sponsor
  if sp = "" then s
  else
    let current := s.companies.find? (fun c => c.id = company_id)
    if current.any (fun c => c.sponsor = sp) then s
    else
      { s with
        companies := s.companies.map (fun c =>
          if c.id = company_id then { c with sponsor := sp, last_updated := some now } else c),
        sponsor_history := s.sponsor_history ++
          [{ company_id := company_id, sponsor := sp, effective_date := now, source := source }] }

/-- `CompanyDB.add_company_sens`: idempotent link of a filing to a
company. -/
def add_company_sens (s : CompanyStore) (company_id : Nat) (sens_number : String)
    (date_published : Option String) (title : String) : CompanyStore :=
  if s.company_sens.any (fun l => l.company_id = company_id && l.sens_number = sens_number) then s
  else
    { s with company_sens := s.company_sens ++
        [{ company_id := company_id, sens_number := sens_number,
           date_published := date_published, title := title }] }

/-- `CompanyDB.get_company_by_jse_code` (returns `None` for an empty
code). -/
def get_company_by_jse_code (s : CompanyStore) (jse_code : String) : Option Company :=
  if jse_code = "" then none
  else s.companies.find? (fun c => lowerStr c.jse_code = lowerStr jse_code)

/-! ## The company enricher (`src/company/enricher.py`)

External effects: the AI provider (`_call_ai` catches every exception
and returns `""`), `json.loads` and the clock are environment values;
the ticker registry file is carried as the list of (uppercased) codes
it contains. -/

/-- ASCII case raising (Python `str.upper()` on ASCII). -/
def upperChar (c : Char) : Char :=
  if 'a' ≤ c && c ≤ 'z' then Char.ofNat (c.toNat - 32) else c

def upperStr (s : String) : String :=
  String.mk (s.toList.map upperChar)

/-- Case-insensitive literal match: consume `lit` (given lowercase)
from the head of `s`, returning the remainder. -/
def litCIM : List Char → List Char → Option (List Char)
  | [], s => some s
  | _ :: _, [] => none
  | l :: ls, c :: cs => if lowerChar c = l then litCIM ls cs else none

/-- `\s+` then nothing: consume at least one whitespace character and
all that follow (greediness is determinate here because every
continuation starts with a non-space literal). -/
def wsPlusM (s : List Char) : Option (List Char) :=
  match s with
  | c :: cs => if pyIsSpace c then some (cs.dropWhile pyIsSpace) else none
  | [] => none

/-- The value class `[\w\-&'()/,\.\s]` of the sponsor pattern. -/
def sponsorClassChar (c : Char) : Bool :=
  isWordChar c || c = '-' || c = '&' || c = '\'' || c = '(' || c = ')' ||
    c = '/' || c = ',' || c = '.' || pyIsSpace c

/-- The keyword alternation `(?:jse\s+sponsor|designated\s+adviser|sponsor)`
(case-insensitive), alternatives tried in order. -/
def sponsorKeyM (s : List Char) : Option (List Char) :=
  match ((litCIM "jse".toList s).bind wsPlusM).bind (litCIM "sponsor".toList) with
  | some r => some r
  | none =>
    match ((litCIM "designated".toList s).bind wsPlusM).bind (litCIM "adviser".toList) with
    | some r => some r
    | none => litCIM "sponsor".toList s

/-- One attempt of the sponsor pattern at the head of `s`, returning
`group(1)`.  After `\s*[:\-]\s*`, the group is the greedy run of class
characters; since the class contains `\s`, Python's backtracking leaves
the group the run minus its leading spaces — or the last space alone if
the run is all spaces. -/
def sponsorTryAt (s : List Char) : Option (List Char) :=
  (sponsorKeyM s).bind fun r1 =>
    match r1.dropWhile pyIsSpace with
    | c :: r3 =>
        if c = ':' ∨ c = '-' then
          let region := r3.takeWhile sponsorClassChar
          if region = [] then none
          else
            let afterSp := region.dropWhile pyIsSpace
            some (if afterSp = [] then
                    (match region.getLast? with | some x => [x] | none => [])
                  else afterSp)
        else none
    | [] => none

/-- `re.search` of the sponsor pattern: leftmost start position wins. -/
def sponsorSearch : List Char → Option (List Char)
  | [] => none
  | c :: rest =>
      match sponsorTryAt (c :: rest) with
      | some g => some g
      | none => sponsorSearch rest

/-- `re.split(r"\n|\.{2,}", val)[0]`: the prefix before the first
newline or run of two or more dots. -/
def splitSponsorVal : List Char → List Char
  | [] => []
  | '\n' :: _ => []
  | '.' :: '.' :: _ => []
  | c :: rest => c :: splitSponsorVal rest

/-- `CompanyEnricher._extract_sponsor`: first match of the sponsor
pattern over the PDF text, cut at newline/ellipsis, stripped, and
length-gated to `3 < len < 80`. -/
def extract_sponsor (pdf_content : String) : String :=
  match sponsorSearch pdf_content.toList with
  | some g =>
      let val := pyStripL g
      let val := pyStripL (splitSponsorVal val)
      if 3 < val.length ∧ val.length < 80 then String.mk val else ""
  | none => ""

/-- The URL character class of the website pattern: the class source
reads backslash-w, backslash-dot, hyphen, slash; the hyphen sits
between two literals so it denotes the two-character range from dot to
slash — the class is `\w`, dot and slash, and does NOT contain the
hyphen. -/
def urlChar (c : Char) : Bool :=
  isWordChar c || c = '.' || c = '/'

/-- The `http` alternative of the greedy `s?` (also reached when the
`https` branch finds no URL character, where it necessarily fails: the
fifth character is `s`, not `:`). -/
def urlTryHttp (s : List Char) : Option (List Char) :=
  if s.take 7 = "http://".toList then
    let run := (s.drop 7).takeWhile urlChar
    if run ≠ [] then some (s.take 7 ++ run) else none
  else none

/-- One attempt of the URL pattern (`https` tried greedily before
`http`; the scheme literal is case-sensitive) at the head of `s`. -/
def urlTryAt (s : List Char) : Option (List Char) :=
  if s.take 8 = "https://".toList then
    let run := (s.drop 8).takeWhile urlChar
    if run ≠ [] then some (s.take 8 ++ run) else urlTryHttp s
  else urlTryHttp s

/-- `re.search` of the URL pattern: leftmost start position wins. -/
def urlSearch : List Char → Option (List Char)
  | [] => none
  | c :: rest =>
      match urlTryAt (c :: rest) with
      | some u => some u
      | none => urlSearch rest

/-- `CompanyEnricher._extract_website`: leftmost `https?://...` match. -/
def extract_website (pdf_content : String) : String :=
  (urlSearch pdf_content.toList).elim "" String.mk

/-- Leftmost occurrence of `\(([A-Z]{2,5})\)`: an opening parenthesis,
2–5 uppercase letters, a closing parenthesis (case-sensitive; a longer
uppercase run cannot match because the character after any 2–5 prefix
would be a letter, not `)`). -/
def findParenCode : List Char → Option String
  | [] => none
  | '(' :: rest =>
      let run := rest.takeWhile isAsciiUpper
      if 2 ≤ run.length ∧ run.length ≤ 5 ∧ (rest.drop run.length).head? = some ')' then
        some (String.mk run)
      else findParenCode rest
  | _ :: rest => findParenCode rest

/-- `text.split()` as the list of words. -/
def pyWords (cur : List Char) : List Char → List (List Char)
  | [] => if cur = [] then [] else [cur.reverse]
  | c :: rest =>
      if pyIsSpace c then
        if cur = [] then pyWords [] rest else cur.reverse :: pyWords [] rest
      else pyWords (c :: cur) rest

/-- `CompanyEnricher._extract_jse_code_from_name`: a parenthesised
2–5 letter uppercase code, else a trailing all-uppercase 2–5 letter
token, else `""`. -/
def extract_jse_code_from_name (company_name : String) : String :=
  if company_name = "" then ""
  else
    match findParenCode company_name.toList with
    | some code => code
    | none =>
        match (pyWords [] company_name.toList).getLast? with
        | some w =>
            if 2 ≤ w.length ∧ w.length ≤ 5 ∧ w.all isAsciiUpper then String.mk w else ""
        | none => ""

/-- `CompanyEnricher._auto_add_ticker` over the registry of codes the
ticker file currently holds (comment-stripped, uppercased): append the
uppercased code when absent; codes longer than 5 characters and the
empty code are ignored. -/
def auto_add_ticker (reg : List String) (jse_code : String) : List String :=
  if jse_code = "" ∨ 5 < jse_code.length then reg
  else
    let code := upperStr jse_code
    if reg.contains code then reg else reg ++ [code]

/-- The shape of the JSON object `_ai_enrich` reads from the provider
response (each field may be null/absent). -/
structure DirEntry where
  name : Option String
  role : Option String
deriving Repr, DecidableEq

structure ExtractData where
  jse_code : Option String
  company_name : Option String
  sponsor : Option String
  company_description : Option String
  sector : Option String
  directors_appointed : Option (List DirEntry)
  directors_resigned : Option (List DirEntry)
deriving Repr, DecidableEq

/-- Environment of one enrichment run: whether `_init_ai_client`
produced a client, the provider round-trip (`""` models any caught
call failure — `_call_ai` never raises), `json.loads` (on the
fence-stripped text), and the clock. -/
structure EnrichEnv where
  hasAI : Bool
  aiCall : String → String
  jsonLoads : String → Option ExtractData
  now : String

/-- `CompanyEnricher._call_ai`. -/
def call_ai (env : EnrichEnv) (prompt : String) : String :=
  if env.hasAI then env.aiCall prompt else ""

/-- Strip the markdown fences `_parse_json_response` tolerates:
remove a leading ` ```(json)?\s* ` and a trailing ` \s*``` ` (the text
has already been stripped, so `$` cannot sit before a trailing
newline). -/
def stripFences (text : List Char) : List Char :=
  if text.take 3 = "```".toList then
    let t1 := text.drop 3
    let t1 := if t1.take 4 = "json".toList then t1.drop 4 else t1
    let t1 := t1.dropWhile pyIsSpace
    let r := t1.reverse
    if r.take 3 = "```".toList then ((r.drop 3).dropWhile pyIsSpace).reverse else t1
  else text

/-- `re.search(r"\{[\s\S]*\}", text)`: from the first `\x7b` to the
last `\x7d`, provided the latter comes after the former. -/
def braceSpan (s : List Char) : Option (List Char) :=
  match s.findIdx? (fun c => c = '\x7b'), s.reverse.findIdx? (fun c => c = '\x7d') with
  | some i, some jr =>
      let j := s.length - 1 - jr
      if i < j then some ((s.drop i).take (j - i + 1)) else none
  | _, _ => none

/-- `CompanyEnricher._parse_json_response`: strip, tolerate fences,
`json.loads`, retry on the brace-delimited substring, else `None`. -/
def parse_json_response (env : EnrichEnv) (raw : String) : Option ExtractData :=
  let text := String.mk (stripFences (pyStrip raw).toList)
  match env.jsonLoads text with
  | some d => some d
  | none =>
      match braceSpan text.toList with
      | some sub => env.jsonLoads (String.mk sub)
      | none => none

/-- The `_AI_EXTRACTION_PROMPT` template, `.format`-ed. -/
def extraction_prompt (title company_name sens_number content : String) : String :=
  "You are a structured data extractor for JSE (Johannesburg Stock Exchange) SENS announcements.\n\nGiven the SENS announcement below, extract the following fields as a JSON object. If a field cannot be determined, use null or an empty list. Only include information explicitly stated in the text.\n\nRequired JSON structure:\n\x7b\n  \"jse_code\": \"3-4 letter JSE ticker code, e.g. SOL, NPN, ABG\",\n  \"company_name\": \"Full registered company name\",\n  \"sponsor\": \"JSE sponsor / designated adviser name, e.g. Java Capital, Nedbank CIB\",\n  \"company_description\": \"What the company does (1-2 sentences), only if described in the announcement\",\n  \"sector\": \"Industry sector, e.g. Mining, Financial Services, Retail, Technology\",\n  \"directors_appointed\": [\n    \x7b\"name\": \"Full Name\", \"role\": \"e.g. Independent Non-Executive Director, CEO, CFO\"\x7d\n  ],\n  \"directors_resigned\": [\n    \x7b\"name\": \"Full Name\", \"role\": \"role if mentioned\"\x7d\n  ]\n\x7d\n\nSENS Title: " ++ title ++ "\nCompany: " ++ company_name ++ "\nSENS Number: " ++ sens_number ++ "\n\nText (first 6000 chars):\n" ++ content ++ "\n\nReturn ONLY the JSON object, no explanation or markdown fences."

/-- Python `result.strip('"')`. -/
def pyStripQuotes (s : String) : String :=
  String.mk (((s.toList.dropWhile (fun c => c = '"')).reverse.dropWhile
    (fun c => c = '"')).reverse)

/-- `CompanyEnricher._synthesise_description`. -/
def synthesise_description (env : EnrichEnv) (existing newDesc : String) : String :=
  if !env.hasAI then newDesc
  else
    let prompt :=
      "A company had this description:\n\"" ++ existing ++
      "\"\n\nA newer SENS now says:\n\"" ++ newDesc ++
      "\"\n\nWrite a single concise description (1-3 sentences) that synthesises both, " ++
      "keeping the most current information. Return only the description, no explanation."
    let result := call_ai env prompt
    if result ≠ "" then pyStrip (pyStripQuotes result) else newDesc

/-- `CompanyEnricher._ai_enrich`: structured extraction and the
store updates it drives.  Every sub-step is a pure store update; the
caller wraps this in `try/except`, but no step here can raise. -/
def ai_enrich (env : EnrichEnv) (company_id : Nat) (ann : SensAnnouncement)
    (s : CompanyStore) (reg : List String) : CompanyStore × List String :=
  let content := ann.pdf_content.take 6000
  if content.length < 50 then (s, reg)
  else
    let raw := call_ai env (extraction_prompt ann.title ann.company_name ann.sens_number content)
    if raw = "" then (s, reg)
    else
      match parse_json_response env raw with
      | none => (s, reg)
      | some data =>
        let jse := upperStr (pyStrip (data.jse_code.getD ""))
        let sr :=
          if jse ≠ "" ∧ jse.length ≤ 5 then
            ((upsert_company s env.now ann.company_name jse "").2, auto_add_ticker reg jse)
          else (s, reg)
        let s := sr.1
        let ai_sponsor := pyStrip (data.sponsor.getD "")
        let s := if ai_sponsor ≠ "" then
            set_sponsor s env.now company_id ai_sponsor ("SENS:" ++ ann.sens_number)
          else s
        let desc := pyStrip (data.company_description.getD "")
        let s :=
          if desc ≠ "" then
            let existing := get_description s company_id
            if existing = "" then update_description s env.now company_id desc
            else if lowerStr existing ≠ lowerStr desc then
              update_description s env.now company_id (synthesise_description env existing desc)
            else s
          else s
        let sector := pyStrip (data.sector.getD "")
        let s := if sector ≠ "" then update_sector s env.now company_id sector else s
        let s := (data.directors_appointed.getD []).foldl (fun acc d =>
            let nm := pyStrip (d.name.getD "")
            if nm ≠ "" then
              (add_director acc env.now company_id nm (pyStrip (d.role.getD ""))
                ann.date_published ann.sens_number).2
            else acc) s
        let s := (data.directors_resigned.getD []).foldl (fun acc d =>
            let nm := pyStrip (d.name.getD "")
            if nm ≠ "" then
              (resign_director acc env.now company_id nm ann.date_published ann.sens_number).2
            else acc) s
        (s, sr.2)

/-- `CompanyEnricher.enrich_from_announcement`: the entry point.
Steps: regex ticker from the company-name field; company upsert;
filing linkage; regex sponsor; regex website; AI structured extraction
(only with content and a client; its exceptions are caught, and in this
embedding it is total); ticker auto-discovery.  The function always
returns a store — nothing raises. -/
def enrich_from_announcement (env : EnrichEnv) (ann : SensAnnouncement)
    (s : CompanyStore) (reg : List String) : CompanyStore × List String :=
  let jse_code := extract_jse_code_from_name ann.company_name
  let r1 := upsert_company s env.now ann.company_name jse_code ""
  let company_id := r1.1
  let s := r1.2
  let s := add_company_sens s company_id ann.sens_number ann.date_published ann.title
  let sponsor := extract_sponsor ann.pdf_content
  let s := if sponsor ≠ "" then
      set_sponsor s env.now company_id sponsor ("SENS:" ++ ann.sens_number)
    else s
  let website := extract_website ann.pdf_content
  let s := if website ≠ "" then (upsert_company s env.now ann.company_name "" website).2 else s
  let sr :=
    if ann.pdf_content ≠ "" ∧ env.hasAI then ai_enrich env company_id ann s reg
    else (s, reg)
  let final_code := jse_code
  let final_code :=
    if final_code = "" then
      match get_company_by_jse_code sr.1 "" with
      | some co => co.jse_code
      | none => final_code
    else final_code
  let reg2 := if final_code ≠ "" then auto_add_ticker sr.2 final_code else sr.2
  (sr.1, reg2)

/-! ## Unusual-activity alerts (`get_unusual_activity_alerts`)

Records are the dicts produced by `categorize_announcements`; their
timestamps are rationals measured in days, `datetime.now()` is the
parameter `now`, and `timedelta(days=k)` is subtraction of `k`.  Float
division/comparison is embedded exactly over `ℚ` (header note). -/

structure CatRecord where
  sens_number : String
  company_name : String
  title : String
  date_published : Option ℚ
  is_urgent : Bool
  category : String
  is_noise : Bool
deriving DecidableEq

structure Alert where
  company : String
  recent_7d : Nat
  avg_weekly : ℚ
  ratio : ℚ
deriving DecidableEq

/-- Python `round` (banker's rounding) to an integer. -/
def pyRoundHalfEven (q : ℚ) : ℤ :=
  let f := ⌊q⌋
  if q - f < 1 / 2 then f
  else if 1 / 2 < q - f then f + 1
  else if f % 2 = 0 then f else f + 1

/-- Python `round(q, 1)`. -/
def pyRound1 (q : ℚ) : ℚ := (pyRoundHalfEven (q * 10) : ℚ) / 10

/-- Does a record land in the lookback window (dated, not before
`cutoff`)?  Items with no date are skipped. -/
def inLookback (cutoff : ℚ) (it : CatRecord) : Bool :=
  match it.date_published with
  | some d => decide (cutoff ≤ d)
  | none => false

/-- Is a record within both the lookback window and the last 7 days? -/
def inRecent (cutoff recent_cutoff : ℚ) (it : CatRecord) : Bool :=
  inLookback cutoff it &&
    (match it.date_published with
     | some d => decide (recent_cutoff ≤ d)
     | none => false)

/-- `company_all[name]`. -/
def countAllFor (items : List CatRecord) (cutoff : ℚ) (name : String) : Nat :=
  (items.filter (fun it => inLookback cutoff it && it.company_name = name)).length

/-- `company_recent[name]`. -/
def countRecentFor (items : List CatRecord) (cutoff recent_cutoff : ℚ) (name : String) : Nat :=
  (items.filter (fun it => inRecent cutoff recent_cutoff it && it.company_name = name)).length

/-- The keys of `company_recent` (companies with at least one recent
announcement, first-mention order). -/
def recentCompanies (items : List CatRecord) (cutoff recent_cutoff : ℚ) : List String :=
  ((items.filter (inRecent cutoff recent_cutoff)).map (fun it => it.company_name)).dedup

/-- Stable insertion into a ratio-descending list (the embedding of
`alerts.sort(key=..., reverse=True)`; tie order is irrelevant to the
properties below). -/
def insertByRatioDesc (a : Alert) : List Alert → List Alert
  | [] => [a]
  | b :: rest => if b.ratio < a.ratio then a :: b :: rest else b :: insertByRatioDesc a rest

def sortByRatioDesc (l : List Alert) : List Alert := l.foldr insertByRatioDesc []

/-- `get_unusual_activity_alerts`: flag a company when its last-7-day
count strictly exceeds `threshold_factor` times its average weekly
count over the lookback window and is at least 3; top 10 by ratio. -/
def get_unusual_activity_alerts (items : List CatRecord) (now lookback_days threshold_factor : ℚ) :
    List Alert :=
  let cutoff := now - lookback_days
  let recent_cutoff := now - 7
  let weeks := max (lookback_days / 7) 1
  let alerts := (recentCompanies items cutoff recent_cutoff).filterMap (fun name =>
    let recent_count := countRecentFor items cutoff recent_cutoff name
    let total := countAllFor items cutoff name
    let avg_weekly := (total : ℚ) / weeks
    if 0 < avg_weekly ∧ avg_weekly * threshold_factor < (recent_count : ℚ) ∧ 3 ≤ recent_count then
      some { company := name, recent_7d := recent_count, avg_weekly := pyRound1 avg_weekly,
             ratio := if avg_weekly ≠ 0 then pyRound1 ((recent_count : ℚ) / avg_weekly) else 0 }
    else none)
  (sortByRatioDesc alerts).take 10

/-! ## Abbreviations and fixtures used in the statements below -/

/-- The source's `avg_word_length = sum(len(word) for word in words) / len(words)`
as an exact rational. -/
def avgWordLen (t : List Char) : ℚ :=
  ((wordLengths 0 t).sum : ℚ) / ((wordLengths 0 t).length : ℚ)

/-- A parse-AI environment in which the text-layer extraction finds 60
characters and the provider call then raises. -/
def aiEnvPypdfThenError : ParseAIEnv :=
  { available := true, pypdfResult := String.mk (List.replicate 60 'x'), aiResult := .error () }

/-- A previously completed announcement: extracted content and summary
both present. -/
def annCompleted : SensAnnouncement :=
  { sens_number := "SENS-1", company_name := "ACME LTD", title := "Results",
    local_pdf_path := "cache/a.pdf", date_published := none,
    pdf_content := "previous extracted content", ai_summary := "old summary",
    parse_method := "ocr", parse_status := "completed", parsed_at := none }

/-- A re-processing run for which OCR fails outright and no AI client is
configured, so the fallback chain produces empty content. -/
def parseEnvEmptyReprocess : ParseEnv :=
  { fileExists := true, ocrText := "", ocrQuality := "poor",
    ai := { available := false, pypdfResult := "", aiResult := .error () },
    summaryResult := "" }

/-- A fresh (never-summarised) announcement and a successful parse run,
for the witness of the amended C7. -/
def annFresh : SensAnnouncement :=
  { sens_number := "SENS-2", company_name := "ACME LTD", title := "Results",
    local_pdf_path := "cache/b.pdf", date_published := none,
    pdf_content := "", ai_summary := "",
    parse_method := "", parse_status := "pending", parsed_at := none }

def parseEnvGood : ParseEnv :=
  { fileExists := true, ocrText := "recovered text", ocrQuality := "good",
    ai := { available := false, pypdfResult := "", aiResult := .error () },
    summaryResult := "a summary" }

/-- An enrichment environment whose provider answers every prompt with
non-JSON garbage and whose `json.loads` accordingly never succeeds. -/
def enrichEnvGarbage : EnrichEnv :=
  { hasAI := true, aiCall := fun _ => "this is not JSON at all",
    jsonLoads := fun _ => none, now := "2025-01-01T00:00:00" }

/-- An announcement with enough extracted text to trigger the AI
enrichment step. -/
def annForEnrich : SensAnnouncement :=
  { sens_number := "SENS-3", company_name := "WIDGET HOLDINGS LIMITED (WDG)",
    title := "Trading statement",
    local_pdf_path := "cache/c.pdf", date_published := some "2025-01-01",
    pdf_content := String.mk (List.replicate 80 'y'), ai_summary := "",
    parse_method := "ocr", parse_status := "completed", parsed_at := none }

/-- One categorized record for the anomaly-detector fixtures. -/
def mkRec (name : String) (d : ℚ) : CatRecord :=
  { sens_number := "s", company_name := name, title := "t", date_published := some d,
    is_urgent := false, category := "Trading Statements & Updates", is_noise := false }

/-- Four announcements in the last 7 days — enough for an alert at
lookback 30, threshold 2. -/
def alertItems : List CatRecord :=
  [mkRec "Acme" 99, mkRec "Acme" 99, mkRec "Acme" 98, mkRec "Acme" 97]

/-- A stored company with non-empty code and website, for the C10
witness. -/
def c10Row : Company :=
  { id := 1, name := "Acme Ltd", jse_code := "ACM", website := "http://acme.example",
    sponsor := "", description := "", sector := "", first_seen := none, last_updated := none }

def c10Store : CompanyStore :=
  { companies := [c10Row], directors := [], sponsor_history := [], company_sens := [],
    nextCompanyId := 2, nextDirectorId := 1 }

/-- One active director, for the C9 witness. -/
def c9Dir : DirectorRow :=
  { id := 1, company_id := 1, name := "Jane Doe", role := "CEO", appointed_date := none,
    resigned_date := none, source_sens := "S0", is_active := true }

def c9Store : CompanyStore :=
  { companies := [], directors := [c9Dir], sponsor_history := [], company_sens := [],
    nextCompanyId := 1, nextDirectorId := 2 }

/-! ## Helper lemmas (shared) -/

lemma mem_insertByRatioDesc {x a : Alert} {l : List Alert} :
    x ∈ insertByRatioDesc a l ↔ x = a ∨ x ∈ l := by
  induction l with
  | nil => simp [insertByRatioDesc]
  | cons b rest ih =>
      unfold insertByRatioDesc
      split
      · simp [or_comm, or_left_comm]
      · simp [ih, or_comm, or_left_comm]

lemma mem_sortByRatioDesc {x : Alert} {l : List Alert} :
    x ∈ sortByRatioDesc l → x ∈ l := by
  induction l with
  | nil => simp [sortByRatioDesc]
  | cons b rest ih =>
      intro h
      rcases mem_insertByRatioDesc.1 h with rfl | h2
      · exact List.mem_cons_self _ _
      · exact List.mem_cons_of_mem _ (ih h2)

lemma upsert_company_keeps_sens (s : CompanyStore) (now name code web : String) :
    (upsert_company s now name code web).2.company_sens = s.company_sens := by
  unfold upsert_company
  rcases upsertMatch s name code with _ | row <;> rfl

lemma upsert_company_keeps_id (s : CompanyStore) (now name code web : String) (i : Nat)
    (h : ∃ c ∈ s.companies, c.id = i) :
    ∃ c ∈ (upsert_company s now name code web).2.companies, c.id = i := by
  obtain ⟨c, hc, rfl⟩ := h
  unfold upsert_company
  rcases upsertMatch s name code with _ | row
  · exact ⟨c, List.mem_append_of_mem_left _ hc, rfl⟩
  · refine ⟨_, List.mem_map_of_mem _ hc, ?_⟩
    dsimp only
    split <;> rfl

lemma upsertMatch_mem (s : CompanyStore) (name code : String) (row : Company)
    (h : upsertMatch s name code = some row) : row ∈ s.companies := by
  unfold upsertMatch at h
  split at h
  · next c heq =>
      cases h
      split at heq
      · exact List.mem_of_find?_eq_some heq
      · exact absurd heq (by simp)
  · exact List.mem_of_find?_eq_some h

lemma upsert_company_result_mem (s : CompanyStore) (now name code web : String) :
    ∃ c ∈ (upsert_company s now name code web).2.companies,
      c.id = (upsert_company s now name code web).1 := by
  unfold upsert_company
  rcases h : upsertMatch s name code with _ | row
  · exact ⟨_, List.mem_append_of_mem_right _ (List.mem_cons_self _ _), rfl⟩
  · refine ⟨_, List.mem_map_of_mem _ (upsertMatch_mem s name code row h), ?_⟩
    dsimp only
    rw [if_pos rfl]

lemma set_sponsor_keeps_sens (s : CompanyStore) (now : String) (cid : Nat)
    (sp src : String) :
    (set_sponsor s now cid sp src).company_sens = s.company_sens := by
  unfold set_sponsor
  dsimp only
  split
  · rfl
  · split <;> rfl

lemma set_sponsor_keeps_id (s : CompanyStore) (now : String) (cid : Nat) (sp src : String)
    (i : Nat) (h : ∃ c ∈ s.companies, c.id = i) :
    ∃ c ∈ (set_sponsor s now cid sp src).companies, c.id = i := by
  obtain ⟨c, hc, rfl⟩ := h
  unfold set_sponsor
  dsimp only
  split
  · exact ⟨c, hc, rfl⟩
  · split
    · exact ⟨c, hc, rfl⟩
    · refine ⟨_, List.mem_map_of_mem _ hc, ?_⟩
      dsimp only
      split <;> rfl

lemma add_company_sens_keeps_companies (s : CompanyStore) (cid : Nat)
    (sn : String) (d : Option String) (t : String) :
    (add_company_sens s cid sn d t).companies = s.companies := by
  unfold add_company_sens
  split <;> rfl

lemma add_company_sens_link (s : CompanyStore) (cid : Nat) (sn : String)
    (d : Option String) (t : String) :
    ∃ l ∈ (add_company_sens s cid sn d t).company_sens,
      l.company_id = cid ∧ l.sens_number = sn := by
  unfold add_company_sens
  split
  · next hany =>
      obtain ⟨l, hl, hp⟩ := List.any_eq_true.1 hany
      refine ⟨l, hl, ?_, ?_⟩ <;> simp_all
  · exact ⟨_, List.mem_append_of_mem_right _ (List.mem_cons_self _ _), rfl, rfl⟩

lemma add_company_sens_keeps_link (s : CompanyStore) (cid : Nat) (sn : String)
    (d : Option String) (t : String) {l : SensLink}
    (h : l ∈ s.company_sens) : l ∈ (add_company_sens s cid sn d t).company_sens := by
  unfold add_company_sens
  split
  · exact h
  · exact List.mem_append_of_mem_left _ h

/-! ## Claim theorems -/

/-- C3: `_assess_ocr_quality` returns `"good"` for a text and character
count exactly when the character count is at least 100, the total
artifact matches are at most 10% of the character count, the
whitespace-split word count is at least 20, and the average word length
lies in the closed interval [2, 15]; it returns `"poor"` otherwise (the
two labels are the only outputs).  In particular any input with
`char_count = 50` scores `"poor"`. -/
theorem C3_ocr_quality (t : List Char) (cc : Nat) :
    (assess_ocr_quality t cc = "good" ∨ assess_ocr_quality t cc = "poor")
    ∧ (assess_ocr_quality t cc = "good" ↔
        (100 ≤ cc ∧ (artifactCount t : ℚ) ≤ (cc : ℚ) / 10 ∧
         20 ≤ (wordLengths 0 t).length ∧
         2 ≤ avgWordLen t ∧ avgWordLen t ≤ 15))
    ∧ assess_ocr_quality t 50 = "poor" := by
  have hart : ((artifactCount t : ℚ) ≤ (cc : ℚ) / 10) ↔ ¬ (cc < artifactCount t * 10) := by
    rw [le_div_iff₀ (by norm_num : (0:ℚ) < 10), not_lt]
    constructor
    · intro h
      exact_mod_cast h
    · intro h
      exact_mod_cast h
  refine ⟨?_, ?_, ?_⟩
  · unfold assess_ocr_quality
    split_ifs <;> simp
  · constructor
    · intro hg
      unfold assess_ocr_quality at hg
      split_ifs at hg with h1 h2 h3 h4
      · exact absurd hg (by simp)
      · exact absurd hg (by simp)
      · exact absurd hg (by simp)
      · exact absurd hg (by simp)
      · push_neg at h4
        have hlen : 20 ≤ (wordLengths 0 t).length := le_of_not_lt h3
        have hlpos : (0 : ℚ) < ((wordLengths 0 t).length : ℚ) := by
          have : 0 < (wordLengths 0 t).length := lt_of_lt_of_le (by norm_num) hlen
          exact_mod_cast this
        obtain ⟨hlo, hhi⟩ := h4
        refine ⟨le_of_not_lt h1, hart.2 h2, hlen, ?_, ?_⟩
        · rw [avgWordLen, le_div_iff₀ hlpos]
          have : 2 * (wordLengths 0 t).length ≤ (wordLengths 0 t).sum := hlo
          calc (2 : ℚ) * ((wordLengths 0 t).length : ℚ)
              = ((2 * (wordLengths 0 t).length : ℕ) : ℚ) := by push_cast; ring
            _ ≤ ((wordLengths 0 t).sum : ℚ) := by exact_mod_cast this
        · rw [avgWordLen, div_le_iff₀ hlpos]
          have : (wordLengths 0 t).sum ≤ 15 * (wordLengths 0 t).length := hhi
          calc ((wordLengths 0 t).sum : ℚ)
              ≤ ((15 * (wordLengths 0 t).length : ℕ) : ℚ) := by exact_mod_cast this
            _ = 15 * ((wordLengths 0 t).length : ℚ) := by push_cast; ring
    · rintro ⟨h1, h2, h3, h4, h5⟩
      have hlpos : (0 : ℚ) < ((wordLengths 0 t).length : ℚ) := by
        have : 0 < (wordLengths 0 t).length := lt_of_lt_of_le (by norm_num) h3
        exact_mod_cast this
      have hlo : 2 * (wordLengths 0 t).length ≤ (wordLengths 0 t).sum := by
        rw [avgWordLen, le_div_iff₀ hlpos] at h4
        exact_mod_cast h4
      have hhi : (wordLengths 0 t).sum ≤ 15 * (wordLengths 0 t).length := by
        rw [avgWordLen, div_le_iff₀ hlpos] at h5
        exact_mod_cast h5
      unfold assess_ocr_quality
      rw [if_neg (not_lt.2 h1), if_neg (hart.1 h2), if_neg (not_lt.2 h3), if_neg]
      simp only [not_or, not_lt]
      exact ⟨hlo, hhi⟩
  · unfold assess_ocr_quality
    norm_num

/-- C4 counterexample: the claim "on any provider exception it returns
the original input text" fails.  Input `"abc"` is under 50 characters,
the text-layer extraction substitutes 60 characters, the provider call
raises — and the function returns the substituted text, not `"abc"`. -/
theorem C4_counterexample :
    extract_with_ai aiEnvPypdfThenError "abc" = String.mk (List.replicate 60 'x')
    ∧ extract_with_ai aiEnvPypdfThenError "abc" ≠ "abc" := by
  constructor
  · rfl
  · decide

/-- C4 (amended): `_extract_with_ai` never raises; with no AI client it
returns the input unmodified; with an empty/short input whose text-layer
extraction also yields nothing it returns `""`; on a provider exception
it returns the text that was passed to the AI call — the original input,
unless the input was short and replaced by the text-layer extraction, in
which case that extracted text. -/
theorem C4_ai_fallback (env : ParseAIEnv) (t : String) :
    (env.available = false → extract_with_ai env t = t)
    ∧ (env.available = true → (t = "" ∨ (pyStrip t).length < 50) →
        env.pypdfResult = "" → extract_with_ai env t = "")
    ∧ (env.available = true → ¬(t = "" ∨ (pyStrip t).length < 50) →
        env.aiResult = .error () → extract_with_ai env t = t)
    ∧ (env.available = true → (t = "" ∨ (pyStrip t).length < 50) →
        env.pypdfResult ≠ "" → env.aiResult = .error () →
        extract_with_ai env t = env.pypdfResult) := by
  have hshort : ∀ h : (t = "" ∨ (pyStrip t).length < 50),
      (t = "" || decide ((pyStrip t).length < 50)) = true := by
    intro h
    rcases h with h | h <;> simp [h]
  have hlong : ∀ _ : ¬ (t = "" ∨ (pyStrip t).length < 50),
      (t = "" || decide ((pyStrip t).length < 50)) = false := by
    intro h
    push_neg at h
    simp [h.1, not_lt.2 h.2]
  refine ⟨?_, ?_, ?_, ?_⟩
  · intro ha
    simp [extract_with_ai, ha]
  · intro ha hs hpy
    rw [extract_with_ai, ha, hshort hs]
    simp [hpy]
  · intro ha hs herr
    rw [extract_with_ai, ha, hlong hs, herr]
    simp
  · intro ha hs hpy herr
    rw [extract_with_ai, ha, hshort hs, herr]
    simp [hpy]

/-- Witness for C4: the three fallback outcomes at concrete inputs. -/
theorem C4_ai_fallback_witness :
    extract_with_ai { available := false, pypdfResult := "", aiResult := .error () }
        "some ocr text" = "some ocr text"
    ∧ extract_with_ai { available := true, pypdfResult := "", aiResult := .error () } "ab" = ""
    ∧ extract_with_ai aiEnvPypdfThenError (String.mk (List.replicate 55 'z')) =
        String.mk (List.replicate 55 'z') :=
  ⟨(C4_ai_fallback _ _).1 rfl,
   (C4_ai_fallback _ _).2.1 rfl (Or.inr (by decide)) rfl,
   (C4_ai_fallback _ _).2.2.1 rfl (by decide) rfl⟩

/-- C7 counterexample: re-processing a completed record when OCR now
fails and no AI client is configured overwrites the extracted text with
`""` yet keeps the stale summary — the resulting record has a non-empty
summary with empty extracted text, contradicting the claim. -/
theorem C7_counterexample :
    (parse_sens_pdf parseEnvEmptyReprocess "2025-02-02" annCompleted).pdf_content = ""
    ∧ (parse_sens_pdf parseEnvEmptyReprocess "2025-02-02" annCompleted).ai_summary =
        "old summary"
    ∧ (parse_sens_pdf parseEnvEmptyReprocess "2025-02-02" annCompleted).parse_status =
        "failed" := by
  refine ⟨?_, ?_, ?_⟩ <;> rfl

/-- C7 (amended): for every announcement entering `parse_sens_pdf` with
an empty summary field (in particular every fresh record), the resulting
record's summary is non-empty only if its extracted text is non-empty.
(A re-processed record may retain its previous summary while its
extracted text is overwritten to empty — see the counterexample.) -/
theorem C7_summary_needs_content (env : ParseEnv) (now : String) (a : SensAnnouncement)
    (h : a.ai_summary = "") :
    (parse_sens_pdf env now a).ai_summary ≠ "" →
    (parse_sens_pdf env now a).pdf_content ≠ "" := by
  intro hs
  unfold parse_sens_pdf at hs ⊢
  by_cases hf : (a.local_pdf_path = "" || !env.fileExists) = true
  · rw [if_pos hf] at hs
    exact absurd (by simpa using h) hs
  · rw [if_neg hf] at hs ⊢
    dsimp only at hs ⊢
    by_cases hq : env.ocrQuality = "good"
    · rw [if_pos hq] at hs ⊢
      dsimp only at hs ⊢
      by_cases hc : env.ocrText ≠ ""
      · rw [if_pos hc]
        exact hc
      · rw [if_neg hc] at hs
        exact absurd (by simpa using h) hs
    · rw [if_neg hq] at hs ⊢
      dsimp only at hs ⊢
      by_cases hc : extract_with_ai env.ai env.ocrText ≠ ""
      · rw [if_pos hc]
        exact hc
      · rw [if_neg hc] at hs
        exact absurd (by simpa using h) hs

/-- Witness for C7: a fresh record parsed successfully — summary and
content both non-empty, with the hypotheses of the theorem discharged at
concrete inputs. -/
theorem C7_summary_needs_content_witness :
    (parse_sens_pdf parseEnvGood "2025-02-02" annFresh).pdf_content ≠ "" :=
  C7_summary_needs_content parseEnvGood "2025-02-02" annFresh rfl (by decide)

/-- C9 counterexample: when no active director record matches,
`resign_director` does NOT create a new director record for the
resignation — it changes nothing and reports failure. -/
theorem C9_counterexample :
    resign_director emptyStore "2025-01-01" 1 "Jane Doe" (some "2025-01-01") "SENS-9"
      = (false, emptyStore)
    ∧ (resign_director emptyStore "2025-01-01" 1 "Jane Doe" (some "2025-01-01")
        "SENS-9").2.directors.length = 0 := by
  constructor <;> rfl

/-- C9 (amended): a resignation marks every active director record that
matches the name case-insensitively as inactive, recording the
resignation date, and inserts no row; when no active record matches, the
store is returned unchanged and failure (`False`) is reported — no new
director record is created. -/
theorem C9_resign (s : CompanyStore) (now : String) (cid : Nat) (name : String)
    (date : Option String) (src : String) :
    ((∃ d ∈ s.directors, dirMatch cid name d = true) →
      (resign_director s now cid name date src).1 = true
      ∧ (resign_director s now cid name date src).2.directors.length = s.directors.length
      ∧ ∀ d ∈ s.directors,
          (dirMatch cid name d = true →
            { d with is_active := false, resigned_date := date, source_sens := src }
              ∈ (resign_director s now cid name date src).2.directors)
          ∧ (dirMatch cid name d = false →
              d ∈ (resign_director s now cid name date src).2.directors))
    ∧ ((∀ d ∈ s.directors, dirMatch cid name d = false) →
        resign_director s now cid name date src = (false, s)) := by
  constructor
  · rintro ⟨d0, hd0, hm0⟩
    have hhit : s.directors.any (dirMatch cid name) = true :=
      List.any_eq_true.2 ⟨d0, hd0, hm0⟩
    unfold resign_director
    dsimp only
    rw [if_pos hhit]
    refine ⟨rfl, by simp, ?_⟩
    intro d hd
    constructor
    · intro hm
      have hmem := List.mem_map_of_mem
        (fun d => if dirMatch cid name d then
            { d with is_active := false, resigned_date := date, source_sens := src }
          else d) hd
      dsimp only at hmem
      rw [if_pos hm] at hmem
      exact hmem
    · intro hm
      have hmem := List.mem_map_of_mem
        (fun d => if dirMatch cid name d then
            { d with is_active := false, resigned_date := date, source_sens := src }
          else d) hd
      dsimp only at hmem
      rw [if_neg (by simp [hm])] at hmem
      exact hmem
  · intro hnone
    have hhit : s.directors.any (dirMatch cid name) = false := by
      rw [List.any_eq_false]
      intro x hx
      simp [hnone x hx]
    unfold resign_director
    dsimp only
    rw [if_neg (by simp [hhit])]

/-- Witness for C9: resigning the one stored active director (matched
with different case) succeeds and inserts no row. -/
theorem C9_resign_witness :
    (resign_director c9Store "t" 1 "jane doe" (some "2025-01-01") "S9").1 = true
    ∧ (resign_director c9Store "t" 1 "jane doe" (some "2025-01-01") "S9").2.directors.length
        = 1 := by
  have h := (C9_resign c9Store "t" 1 "jane doe" (some "2025-01-01") "S9").1 (by decide)
  exact ⟨h.1, h.2.1.trans rfl⟩

/-- C10: when `upsert_company` matches an existing row it merges rather
than clears — the returned id is the matched row's, no row is added or
removed, every row keeps its name and id, and an empty-string `jse_code`
or `website` argument never overwrites a stored value. -/
theorem C10_upsert_merge (s : CompanyStore) (now name code web : String) (r : Company)
    (h : upsertMatch s name code = some r) :
    (upsert_company s now name code web).1 = r.id
    ∧ (upsert_company s now name code web).2.companies.length = s.companies.length
    ∧ ∀ c' ∈ (upsert_company s now name code web).2.companies,
        ∃ c ∈ s.companies, c'.id = c.id ∧ c'.name = c.name
          ∧ (code = "" → c'.jse_code = c.jse_code)
          ∧ (web = "" → c'.website = c.website) := by
  unfold upsert_company
  rw [h]
  refine ⟨rfl, by simp, ?_⟩
  intro c' hc'
  obtain ⟨c, hc, hfc⟩ := List.mem_map.1 hc'
  refine ⟨c, hc, ?_⟩
  rw [← hfc]
  by_cases hid : c.id = r.id
  · rw [if_pos hid]
    refine ⟨rfl, rfl, ?_, ?_⟩
    · intro hcode
      rw [if_pos hcode]
    · intro hweb
      rw [if_pos hweb]
  · rw [if_neg hid]
    exact ⟨rfl, rfl, fun _ => rfl, fun _ => rfl⟩

/-- Witness for C10: updating the stored company with empty arguments
returns its id and adds no row (its code and website survive by the
theorem's merge clauses). -/
theorem C10_upsert_merge_witness :
    (upsert_company c10Store "t2" "ACME LTD" "" "").1 = 1
    ∧ (upsert_company c10Store "t2" "ACME LTD" "" "").2.companies.length = 1 := by
  have h := C10_upsert_merge c10Store "t2" "ACME LTD" "" "" c10Row (by decide)
  exact ⟨h.1, h.2.1.trans rfl⟩

/-- C2 counterexample: the reserved fallback pair is
`("Other / Uncategorised", False)`, not `("Uncategorised", False)` as
the claim states — exhibited on the empty title, which short-circuits to
the fallback. -/
theorem C2_counterexample :
    categorize_title "" = ("Other / Uncategorised", false)
    ∧ categorize_title "" ≠ (("Uncategorised" : String), (false : Bool)) := by
  constructor
  · rfl
  · decide

/-- C2 (amended): for every title that matches no rule in the category
table, and for the empty title (which short-circuits without scanning
the table), `categorize_title` returns the reserved fallback pair
`("Other / Uncategorised", False)`. -/
theorem C2_fallback (title : String)
    (h : title = "" ∨ ∀ r ∈ CATEGORY_RULES, r.2.1.search (lowerStr title) = false) :
    categorize_title title = ("Other / Uncategorised", false) := by
  rcases h with rfl | hall
  · rfl
  · unfold categorize_title
    by_cases ht : title = ""
    · rw [if_pos ht]
    · rw [if_neg ht]
      have hnone : CATEGORY_RULES.find? (fun r => r.2.1.search (lowerStr title)) = none := by
        rw [List.find?_eq_none]
        intro r hr
        simp [hall r hr]
      rw [hnone]

/-- Witness for C2: a concrete title matching none of the 19 rules. -/
theorem C2_fallback_witness :
    categorize_title "zzz" = ("Other / Uncategorised", false) :=
  C2_fallback "zzz" (Or.inr (by decide))

/-- C1 counterexample: a title that matches both a Share Buybacks
pattern and a Dealings by Directors pattern but is NOT categorized
"Share Buybacks & Treasury" — an earlier rule (Trading Statements)
wins, so the claim's universal "returns Share Buybacks & Treasury" is
false. -/
theorem C1_counterexample :
    pat_buyback.search (lowerStr "Trading statement: transaction in own shares") = true
    ∧ pat_dealings.search (lowerStr "Trading statement: transaction in own shares") = true
    ∧ categorize_title "Trading statement: transaction in own shares"
        = ("Trading Statements & Updates", false)
    ∧ categorize_title "Trading statement: transaction in own shares"
        ≠ ("Share Buybacks & Treasury", false) := by
  refine ⟨by decide, by decide, by decide, by decide⟩

/-- C1 (amended): a title matching a Share Buybacks pattern is never
categorized "Dealings by Directors" (the buyback rule is registered
before the director-dealing rule and first match wins); it is
categorized "Share Buybacks & Treasury" provided it also matches none
of the three strategic rules registered before the buyback rule
(Trading Statements & Updates, Financial Results, Acquisitions &
Disposals). -/
theorem C1_buyback_priority (title : String)
    (hb : pat_buyback.search (lowerStr title) = true) :
    (categorize_title title).1 ≠ "Dealings by Directors"
    ∧ (pat_trading.search (lowerStr title) = false →
       pat_results.search (lowerStr title) = false →
       pat_acq.search (lowerStr title) = false →
       categorize_title title = ("Share Buybacks & Treasury", false)) := by
  by_cases ht : title = ""
  · subst ht
    exact absurd hb (by decide)
  · obtain h0 | h0 := Bool.eq_false_or_eq_true (pat_trading.search (lowerStr title))
    · have hfind : List.find? (fun r => r.2.1.search (lowerStr title)) CATEGORY_RULES
          = some ("Trading Statements & Updates", pat_trading, false) := by
        simp [CATEGORY_RULES, h0]
      unfold categorize_title
      rw [if_neg ht, hfind]
      exact ⟨by decide, fun hf0 _ _ => absurd h0 (by simp [hf0])⟩
    · obtain h1 | h1 := Bool.eq_false_or_eq_true (pat_results.search (lowerStr title))
      · have hfind : List.find? (fun r => r.2.1.search (lowerStr title)) CATEGORY_RULES
            = some ("Financial Results", pat_results, false) := by
          simp [CATEGORY_RULES, h0, h1]
        unfold categorize_title
        rw [if_neg ht, hfind]
        exact ⟨by decide, fun _ hf1 _ => absurd h1 (by simp [hf1])⟩
      · obtain h2 | h2 := Bool.eq_false_or_eq_true (pat_acq.search (lowerStr title))
        · have hfind : List.find? (fun r => r.2.1.search (lowerStr title)) CATEGORY_RULES
              = some ("Acquisitions & Disposals", pat_acq, false) := by
            simp [CATEGORY_RULES, h0, h1, h2]
          unfold categorize_title
          rw [if_neg ht, hfind]
          exact ⟨by decide, fun _ _ hf2 => absurd h2 (by simp [hf2])⟩
        · have hfind : List.find? (fun r => r.2.1.search (lowerStr title)) CATEGORY_RULES
              = some ("Share Buybacks & Treasury", pat_buyback, false) := by
            simp [CATEGORY_RULES, h0, h1, h2, hb]
          unfold categorize_title
          rw [if_neg ht, hfind]
          exact ⟨by decide, fun _ _ _ => rfl⟩

/-- Witness for C1: the exact title "Transaction in own shares" matches
the buyback pattern, none of the three earlier rules, and is categorized
("Share Buybacks & Treasury", strategic). -/
theorem C1_buyback_priority_witness :
    (categorize_title "Transaction in own shares").1 ≠ "Dealings by Directors"
    ∧ categorize_title "Transaction in own shares" = ("Share Buybacks & Treasury", false) := by
  have h := C1_buyback_priority "Transaction in own shares" (by decide)
  exact ⟨h.1, h.2 (by decide) (by decide) (by decide)⟩

/-- C6: store-level idempotence.  Upserting twice with the same
non-empty ticker into a store holding no match for the ticker or name
creates exactly one row and returns the same id both times; adding a
director twice with the same case-insensitive name creates exactly one
row, returns the same id, and the second call updates the active
record's role instead of inserting. -/
theorem C6_idempotent (s t : CompanyStore) (now1 now2 name code web1 web2 : String)
    (hcode : code ≠ "")
    (hnew : ∀ c ∈ s.companies,
      lowerStr c.jse_code ≠ lowerStr code ∧ lowerStr c.name ≠ lowerStr name)
    (cid : Nat) (nm nm2 role1 role2 : String) (ad1 ad2 : Option String) (src1 src2 : String)
    (hrole : role2 ≠ "") (hnm : lowerStr nm2 = lowerStr nm)
    (hnodir : ∀ d ∈ t.directors, dirMatch cid nm d = false) :
    ((upsert_company (upsert_company s now1 name code web1).2 now2 name code web2).1
        = (upsert_company s now1 name code web1).1
     ∧ (upsert_company s now1 name code web1).2.companies.length = s.companies.length + 1
     ∧ (upsert_company (upsert_company s now1 name code web1).2
          now2 name code web2).2.companies.length = s.companies.length + 1)
    ∧ ((add_director (add_director t now1 cid nm role1 ad1 src1).2
          now2 cid nm2 role2 ad2 src2).1 = (add_director t now1 cid nm role1 ad1 src1).1
     ∧ (add_director t now1 cid nm role1 ad1 src1).2.directors.length
          = t.directors.length + 1
     ∧ (add_director (add_director t now1 cid nm role1 ad1 src1).2
          now2 cid nm2 role2 ad2 src2).2.directors.length = t.directors.length + 1
     ∧ ∃ d ∈ (add_director (add_director t now1 cid nm role1 ad1 src1).2
          now2 cid nm2 role2 ad2 src2).2.directors,
          d.id = (add_director t now1 cid nm role1 ad1 src1).1
          ∧ d.role = role2 ∧ d.is_active = true) := by
  constructor
  · -- companies
    have hbcode : s.companies.find? (fun c =>
        lowerStr c.jse_code = lowerStr code && c.jse_code ≠ "") = none := by
      rw [List.find?_eq_none]
      intro c hc
      simp [(hnew c hc).1]
    have hbname : s.companies.find? (fun c => lowerStr c.name = lowerStr name) = none := by
      rw [List.find?_eq_none]
      intro c hc
      simp [(hnew c hc).2]
    have hm1 : upsertMatch s name code = none := by
      unfold upsertMatch
      rw [if_pos hcode, hbcode]
      exact hbname
    unfold upsert_company
    rw [hm1]
    dsimp only
    have hm2 : upsertMatch
        ({ s with
            companies := s.companies ++
              [{ id := s.nextCompanyId, name := name, jse_code := code, website := web1,
                 sponsor := "", description := "", sector := "",
                 first_seen := some now1, last_updated := some now1 }],
            nextCompanyId := s.nextCompanyId + 1 }) name code
        = some { id := s.nextCompanyId, name := name, jse_code := code, website := web1,
                 sponsor := "", description := "", sector := "",
                 first_seen := some now1, last_updated := some now1 } := by
      unfold upsertMatch
      rw [if_pos hcode]
      dsimp only
      rw [List.find?_append, hbcode]
      simp [hcode]
    rw [hm2]
    refine ⟨rfl, by simp, by simp⟩
  · -- directors
    have hd1 : t.directors.find? (dirMatch cid nm) = none := by
      rw [List.find?_eq_none]
      intro d hd
      simp [hnodir d hd]
    have hd1' : t.directors.find? (dirMatch cid nm2) = none := by
      rw [List.find?_eq_none]
      intro d hd
      have h := hnodir d hd
      unfold dirMatch at h ⊢
      rw [hnm]
      simp [h]
    unfold add_director
    rw [hd1]
    dsimp only
    have hpnew : dirMatch cid nm2
        { id := t.nextDirectorId, company_id := cid, name := nm, role := role1,
          appointed_date := ad1, resigned_date := none, source_sens := src1,
          is_active := true } = true := by
      unfold dirMatch
      rw [hnm]
      simp
    have hd2 : (t.directors ++
        [({ id := t.nextDirectorId, company_id := cid, name := nm, role := role1,
            appointed_date := ad1, resigned_date := none, source_sens := src1,
            is_active := true } : DirectorRow)]).find? (dirMatch cid nm2)
        = some { id := t.nextDirectorId, company_id := cid, name := nm, role := role1,
                 appointed_date := ad1, resigned_date := none, source_sens := src1,
                 is_active := true } := by
      rw [List.find?_append, hd1']
      simp [hpnew]
    rw [hd2]
    dsimp only
    rw [if_pos hrole]
    refine ⟨rfl, by simp, by simp, ?_⟩
    refine ⟨_, List.mem_map_of_mem _
      (List.mem_append_of_mem_right _ (List.mem_cons_self _ _)), ?_⟩
    dsimp only
    rw [if_pos rfl]
    exact ⟨rfl, rfl, rfl⟩

/-- Witness for C6: both idempotence halves at the empty store. -/
theorem C6_idempotent_witness :
    (upsert_company (upsert_company emptyStore "t1" "Acme Ltd" "ACM" "").2
        "t2" "Acme Ltd" "ACM" "").1 = 1
    ∧ (upsert_company (upsert_company emptyStore "t1" "Acme Ltd" "ACM" "").2
        "t2" "Acme Ltd" "ACM" "").2.companies.length = 1
    ∧ (add_director (add_director emptyStore "t1" 1 "Jane Doe" "" none "S1").2
        "t2" 1 "JANE DOE" "CEO" none "S2").1 = 1
    ∧ (add_director (add_director emptyStore "t1" 1 "Jane Doe" "" none "S1").2
        "t2" 1 "JANE DOE" "CEO" none "S2").2.directors.length = 1 := by
  have h := C6_idempotent emptyStore emptyStore "t1" "t2" "Acme Ltd" "ACM" "" ""
    (by decide) (by simp [emptyStore]) 1 "Jane Doe" "JANE DOE" "" "CEO" none none "S1" "S2"
    (by decide) (by decide) (by simp [emptyStore])
  exact ⟨h.1.1.trans rfl, h.1.2.2.trans rfl, h.2.1.trans rfl, h.2.2.2.1.trans rfl⟩

/-- When the provider output is empty or unparsable, `_ai_enrich`
changes nothing. -/
lemma ai_enrich_no_data (env : EnrichEnv) (cid : Nat) (ann : SensAnnouncement)
    (s : CompanyStore) (reg : List String)
    (h : call_ai env (extraction_prompt ann.title ann.company_name ann.sens_number
           (ann.pdf_content.take 6000)) = ""
       ∨ parse_json_response env (call_ai env (extraction_prompt ann.title ann.company_name
           ann.sens_number (ann.pdf_content.take 6000))) = none) :
    ai_enrich env cid ann s reg = (s, reg) := by
  unfold ai_enrich
  by_cases hlen : (ann.pdf_content.take 6000).length < 50
  · rw [if_pos hlen]
  · rw [if_neg hlen]
    dsimp only
    rcases h with h | h
    · rw [if_pos h]
    · by_cases hraw : call_ai env (extraction_prompt ann.title ann.company_name
          ann.sens_number (ann.pdf_content.take 6000)) = ""
      · rw [if_pos hraw]
      · rw [if_neg hraw, h]

/-- C5: if the AI provider returns malformed or empty output (any
response on which the tolerant JSON parse fails, including non-JSON
garbage), `enrich_from_announcement` still completes — it is a total
function of the store — and the step-2 company upsert and step-3
filing-to-company linkage still take effect: the resulting store
contains a company row with the upserted id and a link row tying that
id to the announcement's SENS number. -/
theorem C5_enrich_garbage_tolerant (env : EnrichEnv) (ann : SensAnnouncement)
    (s : CompanyStore) (reg : List String)
    (h : call_ai env (extraction_prompt ann.title ann.company_name ann.sens_number
           (ann.pdf_content.take 6000)) = ""
       ∨ parse_json_response env (call_ai env (extraction_prompt ann.title ann.company_name
           ann.sens_number (ann.pdf_content.take 6000))) = none) :
    (∃ c ∈ (enrich_from_announcement env ann s reg).1.companies,
        c.id = (upsert_company s env.now ann.company_name
                  (extract_jse_code_from_name ann.company_name) "").1)
    ∧ (∃ l ∈ (enrich_from_announcement env ann s reg).1.company_sens,
        l.company_id = (upsert_company s env.now ann.company_name
                  (extract_jse_code_from_name ann.company_name) "").1
        ∧ l.sens_number = ann.sens_number) := by
  have heq : (enrich_from_announcement env ann s reg).1 =
      (if extract_website ann.pdf_content ≠ "" then
        (upsert_company
          (if extract_sponsor ann.pdf_content ≠ "" then
            set_sponsor
              (add_company_sens
                (upsert_company s env.now ann.company_name
                  (extract_jse_code_from_name ann.company_name) "").2
                (upsert_company s env.now ann.company_name
                  (extract_jse_code_from_name ann.company_name) "").1
                ann.sens_number ann.date_published ann.title)
              env.now
              (upsert_company s env.now ann.company_name
                (extract_jse_code_from_name ann.company_name) "").1
              (extract_sponsor ann.pdf_content) ("SENS:" ++ ann.sens_number)
          else
            add_company_sens
              (upsert_company s env.now ann.company_name
                (extract_jse_code_from_name ann.company_name) "").2
              (upsert_company s env.now ann.company_name
                (extract_jse_code_from_name ann.company_name) "").1
              ann.sens_number ann.date_published ann.title)
          env.now ann.company_name "" (extract_website ann.pdf_content)).2
      else
        (if extract_sponsor ann.pdf_content ≠ "" then
          set_sponsor
            (add_company_sens
              (upsert_company s env.now ann.company_name
                (extract_jse_code_from_name ann.company_name) "").2
              (upsert_company s env.now ann.company_name
                (extract_jse_code_from_name ann.company_name) "").1
              ann.sens_number ann.date_published ann.title)
            env.now
            (upsert_company s env.now ann.company_name
              (extract_jse_code_from_name ann.company_name) "").1
            (extract_sponsor ann.pdf_content) ("SENS:" ++ ann.sens_number)
        else
          add_company_sens
            (upsert_company s env.now ann.company_name
              (extract_jse_code_from_name ann.company_name) "").2
            (upsert_company s env.now ann.company_name
              (extract_jse_code_from_name ann.company_name) "").1
            ann.sens_number ann.date_published ann.title)) := by
    unfold enrich_from_announcement
    dsimp only
    by_cases hcond : (ann.pdf_content ≠ "" ∧ env.hasAI)
    · rw [if_pos hcond, ai_enrich_no_data env _ ann _ reg h]
    · rw [if_neg hcond]
  rw [heq]
  constructor
  · -- a company row with the upserted id survives all later steps
    have h1 := upsert_company_result_mem s env.now ann.company_name
      (extract_jse_code_from_name ann.company_name) ""
    have h2 : ∃ c ∈ (add_company_sens
        (upsert_company s env.now ann.company_name
          (extract_jse_code_from_name ann.company_name) "").2
        (upsert_company s env.now ann.company_name
          (extract_jse_code_from_name ann.company_name) "").1
        ann.sens_number ann.date_published ann.title).companies,
        c.id = (upsert_company s env.now ann.company_name
          (extract_jse_code_from_name ann.company_name) "").1 := by
      rw [add_company_sens_keeps_companies]
      exact h1
    have h3 : ∃ c ∈ (if extract_sponsor ann.pdf_content ≠ "" then
        set_sponsor
          (add_company_sens
            (upsert_company s env.now ann.company_name
              (extract_jse_code_from_name ann.company_name) "").2
            (upsert_company s env.now ann.company_name
              (extract_jse_code_from_name ann.company_name) "").1
            ann.sens_number ann.date_published ann.title)
          env.now
          (upsert_company s env.now ann.company_name
            (extract_jse_code_from_name ann.company_name) "").1
          (extract_sponsor ann.pdf_content) ("SENS:" ++ ann.sens_number)
        else
          add_company_sens
            (upsert_company s env.now ann.company_name
              (extract_jse_code_from_name ann.company_name) "").2
            (upsert_company s env.now ann.company_name
              (extract_jse_code_from_name ann.company_name) "").1
            ann.sens_number ann.date_published ann.title).companies,
        c.id = (upsert_company s env.now ann.company_name
          (extract_jse_code_from_name ann.company_name) "").1 := by
      split
      · exact set_sponsor_keeps_id _ _ _ _ _ _ h2
      · exact h2
    split
    · exact upsert_company_keeps_id _ _ _ _ _ _ h3
    · exact h3
  · -- the filing link survives all later steps
    have h2 := add_company_sens_link
      (upsert_company s env.now ann.company_name
        (extract_jse_code_from_name ann.company_name) "").2
      (upsert_company s env.now ann.company_name
        (extract_jse_code_from_name ann.company_name) "").1
      ann.sens_number ann.date_published ann.title
    have h3 : ∃ l ∈ (if extract_sponsor ann.pdf_content ≠ "" then
        set_sponsor
          (add_company_sens
            (upsert_company s env.now ann.company_name
              (extract_jse_code_from_name ann.company_name) "").2
            (upsert_company s env.now ann.company_name
              (extract_jse_code_from_name ann.company_name) "").1
            ann.sens_number ann.date_published ann.title)
          env.now
          (upsert_company s env.now ann.company_name
            (extract_jse_code_from_name ann.company_name) "").1
          (extract_sponsor ann.pdf_content) ("SENS:" ++ ann.sens_number)
        else
          add_company_sens
            (upsert_company s env.now ann.company_name
              (extract_jse_code_from_name ann.company_name) "").2
            (upsert_company s env.now ann.company_name
              (extract_jse_code_from_name ann.company_name) "").1
            ann.sens_number ann.date_published ann.title).company_sens,
        l.company_id = (upsert_company s env.now ann.company_name
          (extract_jse_code_from_name ann.company_name) "").1
        ∧ l.sens_number = ann.sens_number := by
      split
      · rw [set_sponsor_keeps_sens]
        exact h2
      · exact h2
    split
    · rw [upsert_company_keeps_sens]
      exact h3
    · exact h3

/-- Witness for C5: garbage provider output against an empty store —
the company row and the filing link are still present afterwards. -/
theorem C5_enrich_garbage_tolerant_witness :
    (∃ c ∈ (enrich_from_announcement enrichEnvGarbage annForEnrich emptyStore []).1.companies,
        c.id = (upsert_company emptyStore enrichEnvGarbage.now annForEnrich.company_name
                  (extract_jse_code_from_name annForEnrich.company_name) "").1)
    ∧ (∃ l ∈ (enrich_from_announcement enrichEnvGarbage annForEnrich
          emptyStore []).1.company_sens,
        l.company_id = (upsert_company emptyStore enrichEnvGarbage.now
                  annForEnrich.company_name
                  (extract_jse_code_from_name annForEnrich.company_name) "").1
        ∧ l.sens_number = annForEnrich.sens_number) :=
  C5_enrich_garbage_tolerant enrichEnvGarbage annForEnrich emptyStore [] (Or.inr (by decide))

lemma length_filter_mono {α : Type} {p q : α → Bool}
    (h : ∀ x, p x = true → q x = true) (l : List α) :
    (l.filter p).length ≤ (l.filter q).length := by
  induction l with
  | nil => simp
  | cons x xs ih =>
      rw [List.filter_cons, List.filter_cons]
      by_cases hp : p x = true
      · rw [if_pos hp, if_pos (h x hp)]
        simpa using ih
      · rw [if_neg hp]
        split
        · exact ih.trans (by simp)
        · exact ih

/-- A company's recent count never exceeds its lookback-window count. -/
lemma countRecent_le_countAll (items : List CatRecord) (cutoff recent_cutoff : ℚ)
    (name : String) :
    countRecentFor items cutoff recent_cutoff name ≤ countAllFor items cutoff name := by
  apply length_filter_mono
  intro it hit
  simp only [Bool.and_eq_true] at hit ⊢
  refine ⟨?_, hit.2⟩
  have := hit.1
  rw [inRecent, Bool.and_eq_true] at this
  exact this.1

/-- C8: the unusual-activity detector emits an alert for a company only
if its last-7-day count strictly exceeds `threshold_factor` times its
average weekly count over the lookback window and that recent count is
at least 3.  A company with no announcements in the lookback window is
never alerted, and a recent count exactly equal to the threshold times
the weekly average is not alerted (strict `>`). -/
theorem C8_alert_conditions (items : List CatRecord) (now lookback_days threshold_factor : ℚ)
    (name : String) :
    ((∃ a ∈ get_unusual_activity_alerts items now lookback_days threshold_factor,
        a.company = name) →
      3 ≤ countRecentFor items (now - lookback_days) (now - 7) name
      ∧ ((countAllFor items (now - lookback_days) name : ℚ)
            / max (lookback_days / 7) 1) * threshold_factor
          < (countRecentFor items (now - lookback_days) (now - 7) name : ℚ))
    ∧ (countAllFor items (now - lookback_days) name = 0 →
        ∀ a ∈ get_unusual_activity_alerts items now lookback_days threshold_factor,
          a.company ≠ name)
    ∧ ((countRecentFor items (now - lookback_days) (now - 7) name : ℚ)
          = ((countAllFor items (now - lookback_days) name : ℚ)
              / max (lookback_days / 7) 1) * threshold_factor →
        ∀ a ∈ get_unusual_activity_alerts items now lookback_days threshold_factor,
          a.company ≠ name) := by
  have hmem : ∀ a ∈ get_unusual_activity_alerts items now lookback_days threshold_factor,
      a.company = name →
      3 ≤ countRecentFor items (now - lookback_days) (now - 7) name
      ∧ ((countAllFor items (now - lookback_days) name : ℚ)
            / max (lookback_days / 7) 1) * threshold_factor
          < (countRecentFor items (now - lookback_days) (now - 7) name : ℚ) := by
    intro a ha hname
    unfold get_unusual_activity_alerts at ha
    dsimp only at ha
    have ha2 := mem_sortByRatioDesc (List.mem_of_mem_take ha)
    obtain ⟨nm, _, hfa⟩ := List.mem_filterMap.1 ha2
    split at hfa
    · next hcond =>
        obtain ⟨_, hgt, hge3⟩ := hcond
        cases hfa
        rw [← hname]
        exact ⟨hge3, hgt⟩
    · exact absurd hfa (by simp)
  refine ⟨?_, ?_, ?_⟩
  · rintro ⟨a, ha, hname⟩
    exact hmem a ha hname
  · intro h0 a ha hname
    have hc := (hmem a ha hname).1
    have hle := countRecent_le_countAll items (now - lookback_days) (now - 7) name
    omega
  · intro heq a ha hname
    have hc := (hmem a ha hname).2
    rw [← heq] at hc
    exact lt_irrefl _ hc

/-- Witness for C8: a company with zero announcements in the lookback
window is never alerted — the hypothesis is discharged by checking the
concrete stream mentions only another company. -/
theorem C8_alert_conditions_witness :
    (get_unusual_activity_alerts alertItems 100 30 2).all
      (fun a => a.company != "Ghost") = true := by
  have h := (C8_alert_conditions alertItems 100 30 2 "Ghost").2.1 (by
    unfold countAllFor
    rw [List.length_eq_zero, List.filter_eq_nil_iff]
    intro it hit
    simp only [alertItems, mkRec, List.mem_cons, List.not_mem_nil, or_false] at hit
    rcases hit with rfl | rfl | rfl | rfl <;> simp)
  rw [List.all_eq_true]
  intro a ha
  simpa using h a ha

end JAIBird
